import Mathlib

/-!
# zentickets: the ticket lifecycle of `src/index.js`

A shallow embedding of the ticket functions of the bot (`cleanInput`,
`isTicketChannel`, `showShopModal`, `showSupportModal`, `createShopTicket`,
`createSupportTicket`, `handleTicketClose`, `fetchAllMessages`,
`renderTranscript`, `handleTicketDone`, the ticket commands of the
`messageCreate` handler) together with the part of the messaging platform
they call.  Asynchronous functions are
modelled as functions that return the ordered list of platform calls they
make (`Effect`) and how their promise settles (`Outcome`); the answers of
the platform are inputs (`Platform`).
-/

namespace ZenTickets

/-! ## Data model -/

/-- A message of a channel, as far as the bot reads it: the snowflake `id`
(larger is newer), `author?.tag`, `createdAt` and `cleanContent`; `attachments`
holds the URLs of the files the platform stores with the message. -/
structure Message where
  id : Nat
  authorTag : Option String
  createdAt : Nat
  cleanContent : String
  attachments : List String
deriving DecidableEq, Repr

/-- One call of `channel.messages.fetch` (limit 100, cursor `before`) as the
loop of `fetchAllMessages` sees it: the cursor it sent and what the promise
gave (`none` when it rejected). -/
structure FetchCall where
  before : Option Nat
  page : Option (List Message)
deriving DecidableEq, Repr

/-- A history is chronological when it lists strictly increasing ids, the
oldest message first. -/
abbrev Chronological (l : List Message) : Prop :=
  l.Pairwise (fun a b => a.id < b.id)

/-! ## The platform's history endpoint -/

/-- The `before` filter of the history endpoint: without a cursor every
message qualifies, with a cursor only the strictly older ones. -/
def olderThan (before : Option Nat) (m : Message) : Bool :=
  match before with
  | none => true
  | some b => decide (m.id < b)

/-- The page the platform returns for a channel whose stored history is
`history` (oldest first): the `limit` newest messages strictly older than
the cursor, newest first.  The messaging platform is outside the repository;
this is the behaviour `fetchAllMessages` relies on. -/
def platformPage (history : List Message) (limit : Nat) (before : Option Nat) :
    List Message :=
  ((history.filter (olderThan before)).reverse).take limit

/-- The endpoint with failures: the call number `k` (counted from 0) rejects
when `fails k`, otherwise it resolves with the page. -/
def platformFetch (history : List Message) (fails : Nat → Bool)
    (k limit : Nat) (before : Option Nat) : Option (List Message) :=
  if fails k then none else some (platformPage history limit before)

/-! ## fetchAllMessages (index.js 992-1001) -/

/-- The `while (true)` loop of `fetchAllMessages`.  `fetch k limit before` is
the outcome of the call number `k`; `all` and `last` are the two variables of
the loop, `log` records the calls made so far.  A rejected call is replaced
by an empty collection (`.catch(() => new Map())`), an empty collection ends
the loop, otherwise the page is put in front of `all` and the id of its last
element becomes the cursor.  The loop is cut after `fuel` iterations. -/
def fetchLoop (fetch : Nat → Nat → Option Nat → Option (List Message)) :
    Nat → Nat → List Message → Option Nat → List FetchCall →
    Option (List Message × List FetchCall)
  | 0, _, _, _, _ => none
  | fuel + 1, k, all, last, log =>
    let response := fetch k 100 last
    let fetched := response.getD []
    if fetched.length = 0 then some (all, log ++ [⟨last, response⟩])
    else fetchLoop fetch fuel (k + 1) (fetched ++ all)
      (fetched.getLast?.map Message.id) (log ++ [⟨last, response⟩])

/-- Model of `fetchAllMessages(channel)`: the loop started with `all = []` and no
cursor, then `all.reverse()`.  The second component is the list of calls. -/
def fetchAllMessages (fetch : Nat → Nat → Option Nat → Option (List Message))
    (fuel : Nat) : Option (List Message × List FetchCall) :=
  (fetchLoop fetch fuel 0 [] none []).map (fun r => (r.1.reverse, r.2))

/-- A message with the given id and fixed other fields. -/
def mkMessage (i : Nat) : Message :=
  ⟨i, some "user#0001", 1700000000000 + i, "hello", []⟩

/-- A history of `n` messages with the ids `1, …, n`, oldest first. -/
def sampleHistory (n : Nat) : List Message :=
  (List.range n).map (fun i => mkMessage (i + 1))

/-! ## Configuration, channels and payloads -/

/-- The values read from `config.json` (index.js 42-47).  An id that the file
does not give is `none`. -/
structure Config where
  SUPPORT_ROLE : String
  SHOP_CATEGORY : Option String
  SUPPORT_CATEGORY : Option String
  TRANSCRIPT_CHANNEL : Option String
  CUSTOMER_ROLE_ID : String

/-- What the JavaScript runtime supplies: `String.prototype.toLowerCase`,
`Date.prototype.toLocaleString` (on the time stamp of a message), the clock
read by `setTimestamp()` and `Math.floor(Math.random() * 9000)`. -/
structure Runtime where
  toLowerCase : String → String
  toLocaleString : Nat → String
  now : Nat
  roll : Nat

/-- JavaScript truthiness of a string that may be `null` or `undefined`. -/
def truthy (s : Option String) : Bool :=
  match s with
  | none => false
  | some x => x != ""

/-- The three permission flags the bot uses. -/
inductive Permission where
  | ViewChannel
  | SendMessages
  | ReadMessageHistory
deriving DecidableEq, Repr

/-- An entry of `permissionOverwrites` in a channel creation request. -/
structure OverwriteData where
  id : String
  allow : List Permission
  deny : List Permission
deriving DecidableEq, Repr

/-- An overwrite stored on a channel; `type` is 0 for a role and 1 for a member. -/
structure PermissionOverwrite where
  id : String
  type : Nat
  allow : List Permission
  deny : List Permission
deriving DecidableEq, Repr

/-- A guild text channel as the bot reads it; `messages` is the history the
platform stores, oldest first. -/
structure Channel where
  id : String
  name : String
  guildId : String
  parentId : Option String
  parentName : Option String
  permissionOverwrites : List PermissionOverwrite
  messages : List Message
deriving DecidableEq, Repr

/-- A guild member: the user id, `user.username` and the ids of the roles held. -/
structure Member where
  id : String
  username : String
  roles : List String
deriving DecidableEq, Repr

/-- An interaction (slash command, button or submitted modal): its guild and
member, and `fields.getTextInputValue`. -/
structure Interaction where
  guildId : String
  member : Member
  fields : String → String

/-- Button styles of the message components. -/
inductive ButtonStyle where
  | Primary
  | Secondary
  | Danger
deriving DecidableEq, Repr

/-- A button of a message. -/
structure Button where
  customId : String
  label : String
  style : ButtonStyle
deriving DecidableEq, Repr

/-- A field of an embed. -/
structure EmbedField where
  name : String
  value : String
  inline : Bool
deriving DecidableEq, Repr

/-- An embed; `timestamp` is set by `setTimestamp()`. -/
structure Embed where
  title : String
  description : String
  fields : List EmbedField
  color : String
  timestamp : Option Nat
deriving DecidableEq, Repr

/-- An attached file: the content of the buffer and the file name. -/
structure File where
  attachment : String
  name : String
deriving DecidableEq, Repr

/-- The argument of `send` and `reply`. -/
structure Payload where
  content : Option String
  embeds : List Embed
  components : List (List Button)
  files : List File
  flags : Option Nat
deriving DecidableEq, Repr

/-- The payload of `send("text")`. -/
def textPayload (text : String) : Payload :=
  ⟨some text, [], [], [], none⟩

/-- The argument of `guild.channels.create`; the channel type is always
`ChannelType.GuildText`. -/
structure CreateRequest where
  name : String
  parent : Option String
  permissionOverwrites : List OverwriteData
deriving DecidableEq, Repr

/-- A text input of a modal; `paragraph` tells the style (`Paragraph` or `Short`). -/
structure TextInput where
  customId : String
  label : String
  paragraph : Bool
  required : Bool
deriving DecidableEq, Repr

/-- A modal: its id, its title and its text inputs, one per row. -/
structure Modal where
  customId : String
  title : String
  components : List TextInput
deriving DecidableEq, Repr

/-- The platform calls the ticket functions make, in the order they make them.
The name of `setName` is a JavaScript string given by its UTF-16 code units,
since `slice` can cut a name in the middle of a surrogate pair. -/
inductive Effect where
  | interactionReply (payload : Payload)
  | channelSend (channelId : String) (payload : Payload)
  | userSend (userId : String) (payload : Payload)
  | messagesFetch (channelId : String) (limit : Nat) (before : Option Nat)
  | membersFetch (guildId userId : String)
  | usersFetch (userId : String)
  | channelsFetch (channelId : String)
  | channelsCreate (guildId : String) (request : CreateRequest)
  | setTimeoutDelete (channelId : String) (delay : Nat)
  | consoleError (label : String)
  | showModal (modal : Modal)
  | rolesAdd (userId roleId : String)
  | setName (channelId : String) (name : List Nat)
  | overwritesEdit (channelId userId : String) (allow : List Permission)
  | messageReply (payload : Payload)
deriving DecidableEq, Repr

/-- How the promise of an asynchronous function settles. -/
inductive Outcome where
  | resolved
  | rejected
deriving DecidableEq, Repr

/-- The promise returned by a `return platformCall(...)`: it settles as the call does. -/
def settle (ok : Bool) : Outcome :=
  if ok then Outcome.resolved else Outcome.rejected

/-- What `client.channels.fetch(id)` gives: a rejection, `null`, or a channel
with its id and the value of `isTextBased()`. -/
inductive Lookup where
  | rejected
  | missing
  | found (id : String) (textBased : Bool)
deriving DecidableEq, Repr

/-- The answers of the platform to the calls of the ticket functions.
`fetchFails k` tells whether the history call number `k` rejects;
`guildMember` and `user` give the user found by `guild.members.fetch` and
`client.users.fetch` (`none` when the call rejects); `created` is the id of
the channel made by `guild.channels.create` (`none` when it rejects); the
booleans tell whether the corresponding send, reply, modal or permission
edit succeeds. -/
structure Platform where
  fetchFails : Nat → Bool
  guildMember : String → Option String
  user : String → Option String
  archive : String → Lookup
  created : Option String
  replyOk : Bool
  rejectionSendOk : Bool
  promptSendOk : Bool
  ownerDmOk : Bool
  originSendOk : Bool
  archiveSendOk : Bool
  noticeSendOk : Bool
  openingSendOk : Bool
  showModalOk : Bool
  ownerWarningSendOk : Bool
  overwriteEditOk : Bool
  messageReplyOk : Bool

/-! ## cleanInput and isTicketChannel (index.js 180-187) -/

/-- The characters the replacement of `/[^a-z0-9]/gi` keeps: with the `i` flag
the class covers the ASCII letters of both cases and the digits. -/
def keptByClean (c : Char) : Bool :=
  ('a' ≤ c && c ≤ 'z') || ('A' ≤ c && c ≤ 'Z') || ('0' ≤ c && c ≤ '9')

/-- Model of `cleanInput(text)`. -/
def cleanInput (rt : Runtime) (text : String) : String :=
  if text = "" then ""
  else String.mk (((rt.toLowerCase text).toList.filter keptByClean).take 25)

/-- Model of `isTicketChannel(channel)`:
`channel.parentId && [SHOP_CATEGORY, SUPPORT_CATEGORY].includes(channel.parentId)`. -/
def isTicketChannel (cfg : Config) (channel : Channel) : Bool :=
  truthy channel.parentId &&
    [cfg.SHOP_CATEGORY, cfg.SUPPORT_CATEGORY].contains channel.parentId

/-! ## createShopTicket and createSupportTicket (index.js 862-922) -/

/-- The close button attached to the opening message. -/
def closeButton : Button :=
  ⟨"confirm-close", "❌ Close Ticket", ButtonStyle.Danger⟩

/-- The `permissionOverwrites` array of `createShopTicket` (index.js 874-878). -/
def shopOverwrites (cfg : Config) (interaction : Interaction) : List OverwriteData :=
  [ ⟨interaction.guildId, [], [Permission.ViewChannel]⟩,
    ⟨interaction.member.id, [Permission.ViewChannel, Permission.SendMessages], []⟩,
    ⟨cfg.SUPPORT_ROLE, [Permission.ViewChannel, Permission.SendMessages], []⟩ ]

/-- The `permissionOverwrites` array of `createSupportTicket` (index.js 904-908). -/
def supportOverwrites (cfg : Config) (interaction : Interaction) : List OverwriteData :=
  [ ⟨interaction.guildId, [], [Permission.ViewChannel]⟩,
    ⟨interaction.member.id, [Permission.ViewChannel, Permission.SendMessages], []⟩,
    ⟨cfg.SUPPORT_ROLE, [Permission.ViewChannel, Permission.SendMessages], []⟩ ]

/-- The argument `createShopTicket` passes to `guild.channels.create`. -/
def shopRequest (cfg : Config) (rt : Runtime) (interaction : Interaction) : CreateRequest :=
  let product := interaction.fields "product"
  let cleaned := cleanInput rt product
  let name := if cleaned = "" then "shop-" ++ interaction.member.username else cleaned
  ⟨name, cfg.SHOP_CATEGORY, shopOverwrites cfg interaction⟩

/-- The argument `createSupportTicket` passes to `guild.channels.create`. -/
def supportRequest (cfg : Config) (rt : Runtime) (interaction : Interaction) : CreateRequest :=
  let name := cleanInput rt ("support-" ++ interaction.member.username)
  ⟨name, cfg.SUPPORT_CATEGORY, supportOverwrites cfg interaction⟩

/-- Model of `createShopTicket(interaction)`: create the channel, send the opening
message, reply to the interaction.  A rejected call rejects the function. -/
def createShopTicket (cfg : Config) (rt : Runtime) (pf : Platform)
    (interaction : Interaction) : List Effect × Outcome :=
  let member := interaction.member
  let product := interaction.fields "product"
  let payment := interaction.fields "payment"
  let details :=
    if interaction.fields "details" = "" then "No details" else interaction.fields "details"
  let orderId := "#GX" ++ toString (1000 + rt.roll)
  let create := Effect.channelsCreate interaction.guildId (shopRequest cfg rt interaction)
  match pf.created with
  | none => ([create], Outcome.rejected)
  | some channelId =>
    let embed : Embed :=
      ⟨"🛒 Shop Ticket Opened",
        "Hey <@" ++ member.id ++ ">!\n\nProduct: **" ++ product ++ "**\nPayment: **" ++ payment
          ++ "**\nDetails: " ++ details ++ "\nOrder ID: " ++ orderId,
        [], "#000000", none⟩
    let opening := Effect.channelSend channelId
      ⟨some ("<@" ++ member.id ++ "> @everyone"), [embed], [[closeButton]], [], none⟩
    if pf.openingSendOk then
      ([create, opening,
        Effect.interactionReply
          ⟨some ("✅ Ticket created: <#" ++ channelId ++ ">"), [], [], [], some 64⟩],
        settle pf.replyOk)
    else ([create, opening], Outcome.rejected)

/-- Model of `createSupportTicket(interaction)`. -/
def createSupportTicket (cfg : Config) (rt : Runtime) (pf : Platform)
    (interaction : Interaction) : List Effect × Outcome :=
  let member := interaction.member
  let concern := interaction.fields "concern"
  let ticketId := "#SUP" ++ toString (1000 + rt.roll)
  let create := Effect.channelsCreate interaction.guildId (supportRequest cfg rt interaction)
  match pf.created with
  | none => ([create], Outcome.rejected)
  | some channelId =>
    let embed : Embed :=
      ⟨"🆘 Support Ticket",
        "Hey <@" ++ member.id ++ ">!\nConcern: **" ++ concern ++ "**\nTicket ID: " ++ ticketId,
        [], "#000000", none⟩
    let opening := Effect.channelSend channelId
      ⟨some ("<@" ++ member.id ++ "> @everyone"), [embed], [[closeButton]], [], none⟩
    if pf.openingSendOk then
      ([create, opening,
        Effect.interactionReply
          ⟨some ("✅ Support ticket created: <#" ++ channelId ++ ">"), [], [], [], some 64⟩],
        settle pf.replyOk)
    else ([create, opening], Outcome.rejected)

/-- The `permissionOverwrites` of the creation requests among the effects. -/
def createdOverwrites : List Effect → List (List OverwriteData)
  | [] => []
  | Effect.channelsCreate _ request :: rest =>
    request.permissionOverwrites :: createdOverwrites rest
  | _ :: rest => createdOverwrites rest

/-! ## renderTranscript (index.js 1003-1015) -/

/-- The entry of one message in the transcript. -/
def renderMessage (rt : Runtime) (m : Message) : String :=
  let tag :=
    match m.authorTag with
    | none => "?"
    | some t => if t = "" then "?" else t
  "<div class=\"msg\"><span class=\"auth\">" ++ tag ++ "</span>\n  <span class=\"time\">"
    ++ rt.toLocaleString m.createdAt ++ "</span><div>" ++ m.cleanContent ++ "</div></div>"

/-- The text before the entries. -/
def transcriptHead (name : String) : String :=
  "\n  <html><head><style>\n"
    ++ "  body\x7bbackground:#313338;color:#dcddde;font-family:sans-serif\x7d\n"
    ++ "  .msg\x7bmargin:5px 0;padding:5px;border-bottom:1px solid #444\x7d\n"
    ++ "  .auth\x7bcolor:#fff;font-weight:bold\x7d\n"
    ++ "  .time\x7bcolor:#999;font-size:12px;margin-left:6px\x7d\n"
    ++ "  </style></head><body>\n"
    ++ "  <h2>Transcript of #" ++ name ++ "</h2>\n  "

/-- The text after the entries. -/
def transcriptFoot : String :=
  "\n  </body></html>"

/-- Model of `renderTranscript(messages, name)`. -/
def renderTranscript (rt : Runtime) (messages : List Message) (name : String) : String :=
  transcriptHead name ++ String.join (messages.map (renderMessage rt)) ++ transcriptFoot

/-! ## handleTicketClose (index.js 924-990) -/

/-- The confirmation prompt of an unconfirmed close request. -/
def confirmPrompt : Payload :=
  ⟨some "⚠️ Confirm ticket closure?", [],
    [[⟨"confirm-close", "Yes, Close", ButtonStyle.Danger⟩,
      ⟨"cancel-close", "Cancel", ButtonStyle.Secondary⟩]], [], none⟩

/-- The rejection text of `handleTicketClose`. -/
def notATicket : String := "❌ Use this inside a ticket."

/-- The notice posted before the deletion. -/
def deletionNotice : Payload :=
  textPayload "✅ Ticket will be deleted in 5 seconds."

/-- The id of the first member overwrite of the channel, as
`channel.permissionOverwrites.cache.find(po => po.type === 1)?.id || null`. -/
def ticketOwnerId (channel : Channel) : Option String :=
  match channel.permissionOverwrites.find? (fun po => po.type == 1) with
  | none => none
  | some po => if po.id = "" then none else some po.id

/-- The embed and the file sent to every destination. -/
def transcriptPayload (rt : Runtime) (channel : Channel) (member : Option Member)
    (messages : List Message) : Payload :=
  let transcript := renderTranscript rt messages channel.name
  let file : File := ⟨transcript, "transcript-" ++ channel.name ++ ".html"⟩
  let categoryName :=
    match channel.parentName with
    | none => "Unknown"
    | some n => if n = "" then "Unknown" else n
  let closedBy :=
    match member with
    | none => "Unknown"
    | some m => "<@" ++ m.id ++ ">"
  let ticketEmbed : Embed :=
    ⟨"Ticket Closed", "Your ticket has been closed, and the transcript has been archived.",
      [⟨"Category", categoryName, false⟩, ⟨"Channel Name", "#" ++ channel.name, true⟩,
        ⟨"Closed By", closedBy, true⟩],
      "#000000", some rt.now⟩
  ⟨none, [ticketEmbed], [], [file], none⟩

/-- The direct message to the owner (index.js 959-969): look the member up,
fall back to the user, send when one was found; a failed send is dropped. -/
def ownerDelivery (pf : Platform) (channel : Channel) (payload : Payload) : List Effect :=
  match ticketOwnerId channel with
  | none => []
  | some owner =>
    match pf.guildMember owner with
    | some u => [Effect.membersFetch channel.guildId owner, Effect.userSend u payload]
    | none =>
      match pf.user owner with
      | some u =>
        [Effect.membersFetch channel.guildId owner, Effect.usersFetch owner,
          Effect.userSend u payload]
      | none => [Effect.membersFetch channel.guildId owner, Effect.usersFetch owner]

/-- The copy sent to the ticket channel itself (index.js 971-975). -/
def originDelivery (pf : Platform) (channel : Channel) (payload : Payload) : List Effect :=
  if pf.originSendOk then [Effect.channelSend channel.id payload]
  else [Effect.channelSend channel.id payload,
    Effect.consoleError "Channel transcript send error:"]

/-- The copy sent to the transcript channel (index.js 977-986). -/
def archiveDelivery (cfg : Config) (pf : Platform) (payload : Payload) : List Effect :=
  match cfg.TRANSCRIPT_CHANNEL with
  | none => []
  | some t =>
    if t = "" then []
    else
      match pf.archive t with
      | Lookup.rejected =>
        [Effect.channelsFetch t, Effect.consoleError "Transcript upload error:"]
      | Lookup.missing => [Effect.channelsFetch t]
      | Lookup.found logId textBased =>
        if textBased then
          if pf.archiveSendOk then [Effect.channelsFetch t, Effect.channelSend logId payload]
          else [Effect.channelsFetch t, Effect.channelSend logId payload,
            Effect.consoleError "Transcript upload error:"]
        else [Effect.channelsFetch t]

/-- Model of `handleTicketClose(channel, member, interaction = null)`.  The
result is `none` only when the loop of `fetchAllMessages` is cut by `fuel`. -/
def handleTicketClose (cfg : Config) (rt : Runtime) (pf : Platform) (fuel : Nat)
    (channel : Channel) (member : Option Member) (interaction : Option Interaction) :
    Option (List Effect × Outcome) :=
  if !isTicketChannel cfg channel then
    match interaction with
    | some _ =>
      some ([Effect.interactionReply ⟨some notATicket, [], [], [], some 64⟩], settle pf.replyOk)
    | none =>
      some ([Effect.channelSend channel.id (textPayload notATicket)],
        settle pf.rejectionSendOk)
  else
    match interaction with
    | none => some ([Effect.channelSend channel.id confirmPrompt], settle pf.promptSendOk)
    | some _ =>
      match fetchAllMessages (platformFetch channel.messages pf.fetchFails) fuel with
      | none => none
      | some (messages, calls) =>
        let payload := transcriptPayload rt channel member messages
        some (calls.map (fun c => Effect.messagesFetch channel.id 100 c.before)
            ++ ownerDelivery pf channel payload
            ++ originDelivery pf channel payload
            ++ archiveDelivery cfg pf payload
            ++ [Effect.channelSend channel.id deletionNotice,
                Effect.setTimeoutDelete channel.id 5000],
          Outcome.resolved)

/-- The sends and the scheduled deletion among the effects (lookups,
history calls and console output left out). -/
def deliveries (effects : List Effect) : List Effect :=
  effects.filter (fun e =>
    match e with
    | Effect.channelSend _ _ => true
    | Effect.userSend _ _ => true
    | Effect.interactionReply _ => true
    | Effect.setTimeoutDelete _ _ => true
    | _ => false)

/-! ## Sample inputs -/

/-- A configuration with every id given. -/
def sampleConfig : Config :=
  ⟨"role-support", some "cat-shop", some "cat-support", some "chan-archive", "role-customer"⟩

/-- A runtime: ASCII lower-casing, time stamps printed as numbers. -/
def sampleRuntime : Runtime :=
  ⟨fun s => String.mk (s.toList.map Char.toLower), fun t => toString t, 1700000000999, 234⟩

/-- The requester. -/
def sampleMember : Member := ⟨"user-1", "alice", []⟩

/-- A member of the support team. -/
def supportMember : Member := ⟨"user-2", "bob", ["role-support"]⟩

/-- A submitted purchase form: product "Gift Card", payment "PayPal". -/
def sampleInteraction : Interaction :=
  ⟨"guild-1", sampleMember,
    fun f => if f = "product" then "Gift Card" else if f = "payment" then "PayPal" else ""⟩

/-- A platform on which every call succeeds, but for the history calls that
`fails` names. -/
def samplePlatform (fails : Nat → Bool) : Platform :=
  ⟨fails, fun u => some u, fun u => some u, fun c => Lookup.found c true, some "chan-1",
    true, true, true, true, true, true, true, true, true, true, true, true⟩

/-- A purchase ticket of `sampleMember` holding three messages. -/
def sampleTicket : Channel :=
  ⟨"chan-1", "giftcard", "guild-1", some "cat-shop", some "Shop",
    [⟨"guild-1", 0, [], [Permission.ViewChannel]⟩,
      ⟨"user-1", 1, [Permission.ViewChannel, Permission.SendMessages], []⟩,
      ⟨"role-support", 0, [Permission.ViewChannel, Permission.SendMessages], []⟩],
    sampleHistory 3⟩

/-- The same ticket after an unconfirmed close request: the prompt of the bot
is its newest message, and nobody has pressed a button of it. -/
def pendingTicket : Channel :=
  ⟨"chan-1", "giftcard", "guild-1", some "cat-shop", some "Shop",
    [⟨"guild-1", 0, [], [Permission.ViewChannel]⟩,
      ⟨"user-1", 1, [Permission.ViewChannel, Permission.SendMessages], []⟩,
      ⟨"role-support", 0, [Permission.ViewChannel, Permission.SendMessages], []⟩],
    sampleHistory 3 ++ [⟨4, some "zentickets#0000", 1700000000004, "⚠️ Confirm ticket closure?", []⟩]⟩

/-- A channel outside the ticket categories. -/
def lobbyChannel : Channel :=
  ⟨"chan-9", "general", "guild-1", some "cat-public", some "Public", [], sampleHistory 3⟩

/-! ## Channel names and intake forms -/

/-- The characters of `[a-z0-9]`. -/
def isLowerAlnum (c : Char) : Bool :=
  ('a' ≤ c && c ≤ 'z') || ('0' ≤ c && c ≤ '9')

/-- The derivation of a channel name in the words of the specification: the
first 25 characters of the lower-cased text with every character outside
`[a-z0-9]` removed. -/
def cleanInputSpec (rt : Runtime) (s : String) : String :=
  String.mk (((rt.toLowerCase s).toList.filter isLowerAlnum).take 25)

/-- The channel names of the creation requests among the effects. -/
def createdNames : List Effect → List String
  | [] => []
  | Effect.channelsCreate _ request :: rest => request.name :: createdNames rest
  | _ :: rest => createdNames rest

/-- The modal built by `showShopModal` (index.js 844-852). -/
def shopModal : Modal :=
  ⟨"shop-ticket-modal", "Shop Ticket",
    [⟨"product", "Product Name", false, true⟩,
      ⟨"payment", "Payment Method", false, true⟩,
      ⟨"details", "Description", true, false⟩]⟩

/-- The modal built by `showSupportModal` (index.js 854-860). -/
def supportModal : Modal :=
  ⟨"support-ticket-modal", "Support Ticket",
    [⟨"concern", "What is your concern?", true, true⟩]⟩

/-- Model of `showShopModal(interaction)`. -/
def showShopModal (pf : Platform) : List Effect × Outcome :=
  ([Effect.showModal shopModal], settle pf.showModalOk)

/-- Model of `showSupportModal(interaction)`. -/
def showSupportModal (pf : Platform) : List Effect × Outcome :=
  ([Effect.showModal supportModal], settle pf.showModalOk)

/-- A purchase form whose payment method is a single blank. -/
def blankPaymentInteraction : Interaction :=
  ⟨"guild-1", sampleMember,
    fun f => if f = "product" then "Gift Card" else if f = "payment" then " " else ""⟩

/-- A purchase form whose product name has no letter and no digit. -/
def symbolProductInteraction : Interaction :=
  ⟨"guild-1", sampleMember,
    fun f => if f = "product" then "!!!" else if f = "payment" then "PayPal" else ""⟩

/-- A support form with an empty concern. -/
def blankConcernInteraction : Interaction :=
  ⟨"guild-1", sampleMember, fun _ => ""⟩

/-! ## handleTicketDone (index.js 1017-1030) -/

/-- The UTF-16 code units of a character: one unit below U+10000, a high and a
low surrogate from U+10000 on. -/
def charUnits (c : Char) : List Nat :=
  if c.toNat < 65536 then [c.toNat]
  else [55296 + (c.toNat - 65536) / 1024, 56320 + (c.toNat - 65536) % 1024]

/-- The UTF-16 code units of a string, the units JavaScript counts and slices. -/
def utf16 (s : String) : List Nat :=
  s.toList.flatMap charUnits

/-- The new name: `("done-" + channel.name).slice(0, 100)`, the first 100 UTF-16
code units of "done-" followed by the name. -/
def doneName (name : String) : List Nat :=
  (utf16 ("done-" ++ name)).take 100

/-- The completion notice. -/
def doneEmbed (owner : String) : Embed :=
  ⟨"✅ Deal Completed",
    "Thanks For The Deal <@" ++ owner ++ "> \nTicket marked as **done**.", [], "#000000", none⟩

/-- The warning sent when the channel has no member overwrite. -/
def ownerNotFound : String := "⚠️ Could not find the ticket owner."

/-- Model of `handleTicketDone(channel)`: find the owner among the overwrites,
grant the customer role when the member is found, rename the channel, post
the notice.  Failures of the role grant and of the rename are dropped, the
last send is not awaited. -/
def handleTicketDone (cfg : Config) (pf : Platform) (channel : Channel) :
    List Effect × Outcome :=
  match ticketOwnerId channel with
  | none =>
    ([Effect.channelSend channel.id (textPayload ownerNotFound)],
      settle pf.ownerWarningSendOk)
  | some owner =>
    let grant :=
      match pf.guildMember owner with
      | some u =>
        [Effect.membersFetch channel.guildId owner, Effect.rolesAdd u cfg.CUSTOMER_ROLE_ID]
      | none => [Effect.membersFetch channel.guildId owner]
    (grant ++ [Effect.setName channel.id (doneName channel.name),
        Effect.channelSend channel.id ⟨none, [doneEmbed owner], [], [], none⟩],
      Outcome.resolved)

/-- The renames among the effects: channel id and new name. -/
def renames : List Effect → List (String × List Nat)
  | [] => []
  | Effect.setName channelId name :: rest => (channelId, name) :: renames rest
  | _ :: rest => renames rest

/-- The role grants among the effects: user id and role id. -/
def roleGrants : List Effect → List (String × String)
  | [] => []
  | Effect.rolesAdd userId roleId :: rest => (userId, roleId) :: roleGrants rest
  | _ :: rest => roleGrants rest

/-! ## The ticket commands of the message handler (index.js 278-340) -/

/-- A message received by the handler: its text, whether the author is a bot,
whether it was sent in a guild, the member who sent it, the channel, and the
members it mentions. -/
structure Incoming where
  content : String
  authorBot : Bool
  inGuild : Bool
  member : Member
  channel : Channel
  mentions : List Member

/-- The characters matched by `\s` in a JavaScript regular expression. -/
def jsSpace (c : Char) : Bool :=
  [9, 10, 11, 12, 13, 32, 160, 5760, 8232, 8233, 8239, 8287, 12288, 65279].contains c.toNat
    || (8192 ≤ c.toNat && c.toNat ≤ 8202)

/-- The maximal runs of characters that are not white space, in order; `cur`
holds the run being read, last character first. -/
def splitWords : List Char → List Char → List String
  | [], cur => if cur = [] then [] else [String.mk cur.reverse]
  | c :: cs, cur =>
    if jsSpace c then
      if cur = [] then splitWords cs [] else String.mk cur.reverse :: splitWords cs []
    else splitWords cs (c :: cur)

/-- The value of `message.content.trim().split(/\s+/)`: the words of the text,
and the one empty word when there is none. -/
def contentArgs (content : String) : List String :=
  match splitWords content.toList [] with
  | [] => [""]
  | w :: ws => w :: ws

/-- The reply to a member who lacks the support role. -/
def supportOnly : String := "❌ Only support team can use this."

/-- The reply of `,add` and `,rename` outside a ticket channel. -/
def notInTicket : String := "❌ Use this inside a ticket channel."

/-- Model of the `messageCreate` handler up to the ticket commands.
`findMatchingResponse` is the lookup of the autoresponses, `rest` stands for
what the handler does after the ticket commands (the prefix commands).  The
result is `none` only when `handleTicketClose` is cut by `fuel`. -/
def messageCreate (cfg : Config) (rt : Runtime) (pf : Platform) (fuel : Nat)
    (findMatchingResponse : String → String → Option String)
    (rest : List Effect × Outcome) (message : Incoming) :
    Option (List Effect × Outcome) :=
  if message.authorBot then some ([], Outcome.resolved)
  else if !message.inGuild then some ([], Outcome.resolved)
  else if truthy (findMatchingResponse message.channel.guildId message.content) then
    some ([Effect.messageReply
        ⟨findMatchingResponse message.channel.guildId message.content, [], [], [], none⟩],
      Outcome.resolved)
  else
    let args := contentArgs message.content
    let cmd := rt.toLowerCase (args.headD "")
    let isSupport := message.member.roles.contains cfg.SUPPORT_ROLE
    let deny : Option (List Effect × Outcome) :=
      some ([Effect.messageReply (textPayload supportOnly)], settle pf.messageReplyOk)
    if cmd = ",done" then
      if !isSupport then deny
      else some (handleTicketDone cfg pf message.channel)
    else if cmd = ",close" then
      if !isSupport then deny
      else handleTicketClose cfg rt pf fuel message.channel (some message.member) none
    else if cmd = ",add" then
      if !isSupport then deny
      else
        match message.mentions.head? with
        | none =>
          some ([Effect.messageReply (textPayload "❌ Mention a user to add.")],
            settle pf.messageReplyOk)
        | some user =>
          if !isTicketChannel cfg message.channel then
            some ([Effect.messageReply (textPayload notInTicket)], settle pf.messageReplyOk)
          else
            let edit := Effect.overwritesEdit message.channel.id user.id
              [Permission.ViewChannel, Permission.SendMessages, Permission.ReadMessageHistory]
            if pf.overwriteEditOk then
              some ([edit, Effect.messageReply
                  (textPayload ("✅ Added <@" ++ user.id ++ "> to this ticket."))],
                Outcome.resolved)
            else some ([edit], Outcome.rejected)
    else if cmd = ",rename" then
      if !isSupport then deny
      else
        let newName := cleanInput rt (" ".intercalate args.tail)
        if newName = "" then
          some ([Effect.messageReply (textPayload "❌ Provide a valid new name.")],
            settle pf.messageReplyOk)
        else if !isTicketChannel cfg message.channel then
          some ([Effect.messageReply (textPayload notInTicket)], settle pf.messageReplyOk)
        else
          some ([Effect.setName message.channel.id (utf16 newName),
              Effect.messageReply (textPayload ("✅ Renamed ticket to **" ++ newName ++ "**"))],
            Outcome.resolved)
    else some rest

/-! ## Overwrites stored by the platform -/

/-- The overwrite the platform stores for an entry of a creation request: of
type 1 when the id is that of a member, of type 0 when it is that of a role
(the id of the guild is the id of its everyone role). -/
def storedOverwrite (isMember : String → Bool) (o : OverwriteData) : PermissionOverwrite :=
  ⟨o.id, if isMember o.id then 1 else 0, o.allow, o.deny⟩

/-! ## More sample inputs -/

/-- A channel outside the ticket categories with an overwrite for one member. -/
def privateChannel : Channel :=
  ⟨"chan-8", "staff-chat", "guild-1", some "cat-public", some "Public",
    [⟨"guild-1", 0, [], [Permission.ViewChannel]⟩,
      ⟨"user-7", 1, [Permission.ViewChannel], []⟩],
    sampleHistory 3⟩

/-- The message `,done` sent by a member of the support team in `privateChannel`. -/
def doneInPrivateChannel : Incoming :=
  ⟨",done", false, true, supportMember, privateChannel, []⟩

/-- The sample ticket after `user-3` was added and the overwrite of the
requester `user-1` was removed. -/
def ticketWithoutRequesterGrant : Channel :=
  ⟨"chan-1", "giftcard", "guild-1", some "cat-shop", some "Shop",
    [⟨"guild-1", 0, [], [Permission.ViewChannel]⟩,
      ⟨"role-support", 0, [Permission.ViewChannel, Permission.SendMessages], []⟩,
      ⟨"user-3", 1,
        [Permission.ViewChannel, Permission.SendMessages, Permission.ReadMessageHistory], []⟩],
    sampleHistory 3⟩

/-- The ids of the sample guild that are ids of members. -/
def sampleIsMember (i : String) : Bool :=
  ["user-1", "user-2", "user-3", "user-7"].contains i

/-- The sample ticket after `user-3` was added with `,add`. -/
def ticketWithAddedMember : Channel :=
  ⟨"chan-1", "giftcard", "guild-1", some "cat-shop", some "Shop",
    [⟨"guild-1", 0, [], [Permission.ViewChannel]⟩,
      ⟨"user-1", 1, [Permission.ViewChannel, Permission.SendMessages], []⟩,
      ⟨"role-support", 0, [Permission.ViewChannel, Permission.SendMessages], []⟩,
      ⟨"user-3", 1,
        [Permission.ViewChannel, Permission.SendMessages, Permission.ReadMessageHistory], []⟩],
    sampleHistory 3⟩

/-- A ticket channel named "support-alice". -/
def supportAliceTicket : Channel :=
  ⟨"chan-2", "support-alice", "guild-1", some "cat-support", some "Support",
    [⟨"guild-1", 0, [], [Permission.ViewChannel]⟩,
      ⟨"user-1", 1, [Permission.ViewChannel, Permission.SendMessages], []⟩,
      ⟨"role-support", 0, [Permission.ViewChannel, Permission.SendMessages], []⟩],
    []⟩

/-- A message whose body is HTML markup. -/
def scriptMessage : Message :=
  ⟨5, some "mallory#0666", 1700000000005, "<script>alert(1)</script>", []⟩

/-- A message with one attached file and no text. -/
def attachmentMessage : Message :=
  ⟨6, some "alice#0001", 1700000000006, "", ["https://cdn.example/receipt.png"]⟩

/-! ## Created channels and command messages -/

/-- The `parent` of the creation requests among the effects: the category
under which the platform puts the new channel, whose id is then the
`parentId` of that channel. -/
def createdParents : List Effect → List (Option String)
  | [] => []
  | Effect.channelsCreate _ request :: rest => request.parent :: createdParents rest
  | _ :: rest => createdParents rest

/-- The four ticket commands of the message handler. -/
def ticketCommandWords : List String := [",done", ",close", ",add", ",rename"]

/-- The message `,close now` sent in the sample ticket by the requester, who
does not hold the support role. -/
def closeByRequester : Incoming :=
  ⟨",close now", false, true, sampleMember, sampleTicket, []⟩

/-! ## Archive lookups and further sample channels -/

/-- The lookups of a channel by `client.channels.fetch` among the effects. -/
def channelLookups (effects : List Effect) : List Effect :=
  effects.filter (fun e =>
    match e with
    | Effect.channelsFetch _ => true
    | _ => false)

/-- The sample ticket after the overwrite of the requester was removed: no
overwrite of member type is left. -/
def ticketWithoutMemberGrant : Channel :=
  ⟨"chan-1", "giftcard", "guild-1", some "cat-shop", some "Shop",
    [⟨"guild-1", 0, [], [Permission.ViewChannel]⟩,
      ⟨"role-support", 0, [Permission.ViewChannel, Permission.SendMessages], []⟩],
    sampleHistory 3⟩

/-- A ticket whose name is "xy" followed by sixty emoji, 122 UTF-16 code units. -/
def emojiTicket : Channel :=
  ⟨"chan-3", String.mk ('x' :: 'y' :: List.replicate 60 '😀'), "guild-1", some "cat-shop",
    some "Shop",
    [⟨"guild-1", 0, [], [Permission.ViewChannel]⟩,
      ⟨"user-1", 1, [Permission.ViewChannel, Permission.SendMessages], []⟩,
      ⟨"role-support", 0, [Permission.ViewChannel, Permission.SendMessages], []⟩],
    []⟩

/-- The messages of the pages in a list of calls, in call order (a rejected
call contributes nothing). -/
def retrieved : List FetchCall → List Message
  | [] => []
  | c :: cs => c.page.getD [] ++ retrieved cs

/-- The relation between two consecutive calls: the earlier one resolved with a
non-empty page and the later one carries as cursor the id of the last
element of that page, which is the oldest message of the page. -/
def CursorFollows (prev next : FetchCall) : Prop :=
  ∃ p m, prev.page = some p ∧ p.getLast? = some m ∧ (∀ y ∈ p, m.id ≤ y.id) ∧
    next.before = some m.id

/-! ## Lemmas on the history endpoint -/

theorem olderThan_of_lt {last : Option Nat} {x m : Message}
    (hx : olderThan last x = true) (hm : m.id < x.id) : olderThan last m = true := by
  cases last with
  | none => rfl
  | some b =>
    simp only [olderThan, decide_eq_true_eq] at hx ⊢
    omega

theorem filter_olderThan_of_mem (history : List Message) (last : Option Nat) (x : Message)
    (hx : x ∈ history.filter (olderThan last)) :
    history.filter (olderThan (some x.id)) =
      (history.filter (olderThan last)).filter (olderThan (some x.id)) := by
  rw [List.filter_filter]
  apply List.filter_congr
  intro m _
  have hx2 : olderThan last x = true := (List.mem_filter.mp hx).2
  cases hm : olderThan (some x.id) m with
  | false => simp
  | true =>
    have : m.id < x.id := by simpa [olderThan] using hm
    simp [olderThan_of_lt hx2 this]

theorem filter_olderThan_split (a b : List Message) (x : Message)
    (hc : Chronological (a ++ x :: b)) :
    (a ++ x :: b).filter (olderThan (some x.id)) = a := by
  have h := List.pairwise_append.mp hc
  have hb := List.pairwise_cons.mp h.2.1
  rw [List.filter_append, List.filter_cons]
  have h1 : a.filter (olderThan (some x.id)) = a := by
    apply List.filter_eq_self.mpr
    intro m hm
    simpa [olderThan] using h.2.2 m hm x (List.mem_cons_self _ _)
  have h2 : b.filter (olderThan (some x.id)) = [] := by
    apply List.filter_eq_nil_iff.mpr
    intro m hm
    have := hb.1 m hm
    simp only [olderThan, decide_eq_true_eq]
    omega
  simp [h1, h2, olderThan]

theorem platformPage_eq (history : List Message) (n : Nat) (last : Option Nat) :
    platformPage history n last =
      ((history.filter (olderThan last)).drop
        ((history.filter (olderThan last)).length - n)).reverse := by
  unfold platformPage
  exact List.take_reverse

theorem mem_platformPage {history : List Message} {n : Nat} {last : Option Nat}
    {m : Message} (hm : m ∈ platformPage history n last) :
    m ∈ history ∧ olderThan last m = true := by
  unfold platformPage at hm
  have := List.mem_reverse.mp (List.mem_of_mem_take hm)
  exact List.mem_filter.mp this

theorem platformPage_step (history : List Message) (hc : Chronological history)
    (n : Nat) (hn : 0 < n) (last : Option Nat)
    (hne : history.filter (olderThan last) ≠ []) :
    ∃ x, (platformPage history n last).getLast? = some x ∧
      platformPage history n last ≠ [] ∧
      (∀ y ∈ platformPage history n last, x.id ≤ y.id) ∧
      history.filter (olderThan (some x.id)) =
        (history.filter (olderThan last)).take
          ((history.filter (olderThan last)).length - n) ∧
      (platformPage history n last).Perm
        ((history.filter (olderThan last)).drop
          ((history.filter (olderThan last)).length - n)) := by
  rw [platformPage_eq]
  generalize hrem : history.filter (olderThan last) = rem at hne ⊢
  have hsorted : Chronological rem := by
    rw [← hrem]; exact List.Pairwise.filter _ hc
  have hlen : 0 < rem.length := List.length_pos.mpr hne
  have hsplit : rem.take (rem.length - n) ++ rem.drop (rem.length - n) = rem :=
    List.take_append_drop _ _
  cases hd : rem.drop (rem.length - n) with
  | nil =>
    have := congrArg List.length hd
    simp only [List.length_drop, List.length_nil] at this
    omega
  | cons x b =>
    rw [hd] at hsplit
    refine ⟨x, ?_, ?_, ?_, ?_, ?_⟩
    · simp
    · simp
    · intro y hy
      have hy2 : y ∈ x :: b := List.mem_reverse.mp hy
      have hs : Chronological (x :: b) := by
        rw [← hd]; exact List.Pairwise.sublist (List.drop_sublist _ _) hsorted
      rcases List.mem_cons.mp hy2 with rfl | hyb
      · exact Nat.le_refl _
      · exact Nat.le_of_lt ((List.pairwise_cons.mp hs).1 y hyb)
    · have hx : x ∈ history.filter (olderThan last) := by
        rw [hrem, ← hsplit]; simp
      rw [filter_olderThan_of_mem history last x hx, hrem]
      conv => lhs; rw [← hsplit]
      exact filter_olderThan_split _ _ _ (by rw [hsplit]; exact hsorted)
    · exact List.reverse_perm _

theorem drop_blocks {α : Type} (rem : List α) (j : Nat) :
    rem.drop (rem.length - 100 * (j + 1))
      = (rem.take (rem.length - 100)).drop (rem.length - 100 - 100 * j)
        ++ rem.drop (rem.length - 100) := by
  have hs := List.take_append_drop (rem.length - 100) rem
  have hl : (rem.take (rem.length - 100)).length = rem.length - 100 := by simp
  calc rem.drop (rem.length - 100 * (j + 1))
      = (rem.take (rem.length - 100) ++ rem.drop (rem.length - 100)).drop
          (rem.length - 100 - 100 * j) := by
        rw [hs]; congr 1; omega
    _ = _ := List.drop_append_of_le_length (by rw [hl]; omega)

/-! ## The loop against the history endpoint -/

/-- The run of the loop on a chronological history, from any cursor: when the
next `j` calls resolve with non-empty pages and the call after them rejects
or finds nothing older, the loop makes exactly `j + 1` calls and returns. -/
theorem fetchLoop_platform (history : List Message) (hc : Chronological history)
    (fails : Nat → Bool) :
    ∀ (j k : Nat) (last : Option Nat) (all : List Message) (log : List FetchCall)
      (fuel : Nat),
      (∀ i, i < j → fails (k + i) = false) →
      100 * j < (history.filter (olderThan last)).length + 100 →
      (fails (k + j) = true ∨ (history.filter (olderThan last)).length ≤ 100 * j) →
      j < fuel →
      ∃ acc calls rest,
        fetchLoop (platformFetch history fails) fuel k all last log
          = some (acc ++ all, log ++ calls) ∧
        calls.length = j + 1 ∧
        acc.Perm ((history.filter (olderThan last)).drop
          ((history.filter (olderThan last)).length - 100 * j)) ∧
        acc.Perm (retrieved calls) ∧
        calls = ⟨last, platformFetch history fails k 100 last⟩ :: rest ∧
        List.Chain' CursorFollows calls ∧
        calls.getLast?.map FetchCall.page
          = some (if fails (k + j) then none else some []) ∧
        (∀ c ∈ calls, c.page = none ∨
          c.page = some (platformPage history 100 c.before)) := by
  intro j
  induction j with
  | zero =>
    intro k last all log fuel _ _ hstop hfuel
    obtain ⟨fuel, rfl⟩ : ∃ f, fuel = f + 1 := ⟨fuel - 1, by omega⟩
    have hresp : platformFetch history fails k 100 last
        = if fails k then none else some [] := by
      unfold platformFetch
      cases hf : fails k with
      | true => simp
      | false =>
        have hl : (history.filter (olderThan last)).length ≤ 100 * 0 := by
          rcases hstop with h | h
          · simp [hf] at h
          · exact h
        have hnil : history.filter (olderThan last) = [] :=
          List.length_eq_zero.mp (by omega)
        simp [platformPage, hnil]
    refine ⟨[], [⟨last, platformFetch history fails k 100 last⟩], [], ?_, rfl, ?_, ?_,
      rfl, ?_, ?_, ?_⟩
    · unfold fetchLoop
      rw [hresp]
      cases fails k <;> simp
    · simp
    · simp [retrieved, hresp]
      cases fails k <;> simp
    · simp
    · simpa using hresp
    · intro c hc2
      rw [List.mem_singleton.mp hc2, hresp]
      cases hf : fails k with
      | true => simp
      | false =>
        right
        have := hresp
        simp only [platformFetch, hf] at this
        simpa using this.symm
  | succ j ih =>
    intro k last all log fuel hok hlen hstop hfuel
    obtain ⟨fuel, rfl⟩ : ∃ f, fuel = f + 1 := ⟨fuel - 1, by omega⟩
    have hf : fails k = false := by simpa using hok 0 (by omega)
    have hne : history.filter (olderThan last) ≠ [] := by
      intro h0
      rw [h0] at hlen
      simp at hlen
    obtain ⟨x, hlast, hpne, hmin, hnext, hperm⟩ :=
      platformPage_step history hc 100 (by omega) last hne
    have hresp : platformFetch history fails k 100 last
        = some (platformPage history 100 last) := by
      simp [platformFetch, hf]
    have hlt : ((history.filter (olderThan last)).take
        ((history.filter (olderThan last)).length - 100)).length
        = (history.filter (olderThan last)).length - 100 := by
      simp
    have e : ∀ i, k + 1 + i = k + (i + 1) := fun i => by omega
    obtain ⟨acc, calls, rest, hrun, hcl, hp1, hp2, hhead, hchain, hfin, hall⟩ :=
      ih (k + 1) (some x.id) (platformPage history 100 last ++ all)
        (log ++ [⟨last, platformFetch history fails k 100 last⟩]) fuel
        (fun i hi => by rw [e]; exact hok (i + 1) (by omega))
        (by rw [hnext, hlt]; omega)
        (by
          rw [e, hnext, hlt]
          rcases hstop with h | h
          · exact Or.inl h
          · exact Or.inr (by omega))
        (by omega)
    refine ⟨acc ++ platformPage history 100 last,
      ⟨last, platformFetch history fails k 100 last⟩ :: calls, calls, ?_, ?_, ?_, ?_,
      rfl, ?_, ?_, ?_⟩
    · have hlen0 : ¬ (platformPage history 100 last).length = 0 := by
        intro h0
        exact hpne (List.length_eq_zero.mp h0)
      rw [fetchLoop]
      simp only [hresp, Option.getD_some, hlen0, if_false, hlast, Option.map_some']
      rw [hresp] at hrun
      rw [hrun]
      simp
    · simp [hcl]
    · rw [hnext, hlt] at hp1
      have hd := drop_blocks (history.filter (olderThan last)) j
      rw [hd]
      exact List.Perm.append hp1 hperm
    · rw [retrieved, hresp]
      simp only [Option.getD_some]
      exact (List.perm_append_comm).trans (List.Perm.append_left _ hp2)
    · rw [hhead] at hchain ⊢
      refine List.chain'_cons.mpr ⟨?_, hchain⟩
      exact ⟨platformPage history 100 last, x, hresp, hlast, hmin, rfl⟩
    · rw [← e]
      rw [hhead] at hfin ⊢
      simpa using hfin
    · intro c hc2
      rcases List.mem_cons.mp hc2 with rfl | hc3
      · exact Or.inr hresp
      · exact hall c hc3

theorem filter_olderThan_none (history : List Message) :
    history.filter (olderThan none) = history :=
  List.filter_eq_self.mpr (fun _ _ => rfl)

theorem sampleHistory_chronological (n : Nat) : Chronological (sampleHistory n) := by
  unfold Chronological sampleHistory
  rw [List.pairwise_map]
  exact (List.pairwise_lt_range n).imp (fun h => by simpa [mkMessage] using h)

theorem sampleHistory_length (n : Nat) : (sampleHistory n).length = n := by
  simp [sampleHistory]

/-- Whatever the stored history and whichever calls reject, the loop returns
within as many iterations as there are messages older than the cursor, plus
one: the cursor moves to a message of the page, which is strictly older. -/
theorem fetchLoop_returns (history : List Message) (fails : Nat → Bool) :
    ∀ (fuel k : Nat) (all : List Message) (last : Option Nat) (log : List FetchCall),
      (history.filter (olderThan last)).length < fuel →
      ∃ r, fetchLoop (platformFetch history fails) fuel k all last log = some r := by
  intro fuel
  induction fuel with
  | zero => intro k all last log h; omega
  | succ fuel ih =>
    intro k all last log h
    rw [fetchLoop]
    by_cases h0 : ((platformFetch history fails k 100 last).getD []).length = 0
    · simp [h0]
    · simp only [h0, if_false]
      have hpage : (platformFetch history fails k 100 last).getD []
          = platformPage history 100 last := by
        unfold platformFetch at h0 ⊢
        cases hf : fails k with
        | true => simp [hf] at h0
        | false => simp
      rw [hpage] at h0 ⊢
      cases hl : (platformPage history 100 last).getLast? with
      | none =>
        rw [List.getLast?_eq_none_iff] at hl
        simp [hl] at h0
      | some x =>
        have hx := mem_platformPage (List.mem_of_getLast?_eq_some hl)
        have hxm : x ∈ history.filter (olderThan last) := List.mem_filter.mpr hx
        apply ih
        simp only [Option.map_some']
        rw [filter_olderThan_of_mem history last x hxm]
        have : ((history.filter (olderThan last)).filter (olderThan (some x.id))).length
            < (history.filter (olderThan last)).length :=
          List.length_filter_lt_length_iff_exists.mpr ⟨x, hxm, by simp [olderThan]⟩
        omega

/-- With a fuel above the number of stored messages `fetchAllMessages` returns. -/
theorem fetchAllMessages_returns (history : List Message) (fails : Nat → Bool)
    (fuel : Nat) (h : history.length < fuel) :
    ∃ msgs calls, fetchAllMessages (platformFetch history fails) fuel = some (msgs, calls) := by
  obtain ⟨r, hr⟩ := fetchLoop_returns history fails fuel 0 [] none []
    (by rw [filter_olderThan_none]; exact h)
  exact ⟨r.1.reverse, r.2, by simp [fetchAllMessages, hr]⟩

/-! ## fetchAllMessages: order, completeness, calls, failures -/

/-- C1, on a history that spans two pages.  For the 101 messages with the ids
1 to 101 and no failing call, `fetchAllMessages` returns the ids 2 to 101
followed by 1: the page of the newest hundred comes first and the older page
after it, so the result is not chronological. -/
theorem fetchAllMessages_two_pages_out_of_order :
    Chronological (sampleHistory 101) ∧
    ∃ msgs calls,
      fetchAllMessages (platformFetch (sampleHistory 101) (fun _ => false)) 3
        = some (msgs, calls) ∧
      msgs.map Message.id = List.range' 2 100 ++ [1] ∧
      ¬ Chronological msgs := by
  refine ⟨sampleHistory_chronological 101, _, _, rfl, by decide, by decide⟩

/-- C2.  On a chronological history of `N` messages with no failing call,
`fetchAllMessages` returns (for every fuel above `⌈N/100⌉`) a sequence that
is a permutation of the history: it has length `N` and holds every message of
the history exactly once. -/
theorem fetchAllMessages_complete (history : List Message) (hc : Chronological history)
    (fuel : Nat) (hfuel : (history.length + 99) / 100 < fuel) :
    ∃ msgs calls,
      fetchAllMessages (platformFetch history (fun _ => false)) fuel = some (msgs, calls) ∧
      msgs.Perm history ∧ msgs.length = history.length ∧
      (∀ m, m ∈ history → msgs.count m = 1) ∧ (∀ m, m ∈ msgs → m ∈ history) := by
  obtain ⟨acc, calls, rest, hrun, -, hp, -⟩ :=
    fetchLoop_platform history hc (fun _ => false) ((history.length + 99) / 100) 0 none [] []
      fuel (fun _ _ => rfl)
      (by rw [filter_olderThan_none]; omega)
      (Or.inr (by rw [filter_olderThan_none]; omega)) hfuel
  rw [filter_olderThan_none] at hp
  have hz : history.length - 100 * ((history.length + 99) / 100) = 0 := by omega
  rw [hz, List.drop_zero] at hp
  have hperm : acc.reverse.Perm history := (List.reverse_perm acc).trans hp
  have hnodup : history.Nodup := hc.imp (fun h e => by rw [e] at h; exact Nat.lt_irrefl _ h)
  refine ⟨acc.reverse, calls, ?_, hperm, hperm.length_eq, ?_, ?_⟩
  · simp [fetchAllMessages, hrun]
  · intro m hm
    rw [hperm.count_eq]
    exact List.count_eq_one_of_mem hnodup hm
  · intro m hm
    exact hperm.subset hm

/-- Witness of C2 on 250 messages. -/
theorem fetchAllMessages_complete_witness :
    ∃ msgs calls,
      fetchAllMessages (platformFetch (sampleHistory 250) (fun _ => false)) 4
        = some (msgs, calls) ∧
      msgs.Perm (sampleHistory 250) ∧ msgs.length = (sampleHistory 250).length ∧
      (∀ m, m ∈ sampleHistory 250 → msgs.count m = 1) ∧
      (∀ m, m ∈ msgs → m ∈ sampleHistory 250) :=
  fetchAllMessages_complete (sampleHistory 250) (sampleHistory_chronological 250) 4
    (by rw [sampleHistory_length]; decide)

/-- C3.  On a chronological history of `N` messages with no failing call,
`fetchAllMessages` makes exactly `⌈N/100⌉ + 1` calls: the first one carries
no cursor, every later one carries the id of the last element of the page
before it, which is the oldest message of that page, every page holds only
messages strictly older than the cursor it was asked with, and the last call
is the one that resolves with the empty page. -/
theorem fetchAllMessages_calls (history : List Message) (hc : Chronological history)
    (fuel : Nat) (hfuel : (history.length + 99) / 100 < fuel) :
    ∃ msgs calls,
      fetchAllMessages (platformFetch history (fun _ => false)) fuel = some (msgs, calls) ∧
      calls.length = (history.length + 99) / 100 + 1 ∧
      calls.head?.map FetchCall.before = some none ∧
      List.Chain' CursorFollows calls ∧
      (∀ c ∈ calls, ∀ b p, c.before = some b → c.page = some p → ∀ m ∈ p, m.id < b) ∧
      calls.getLast?.map FetchCall.page = some (some []) := by
  obtain ⟨acc, calls, rest, hrun, hlen, -, -, hhead, hchain, hfin, hall⟩ :=
    fetchLoop_platform history hc (fun _ => false) ((history.length + 99) / 100) 0 none [] []
      fuel (fun _ _ => rfl)
      (by rw [filter_olderThan_none]; omega)
      (Or.inr (by rw [filter_olderThan_none]; omega)) hfuel
  refine ⟨acc.reverse, calls, ?_, hlen, ?_, hchain, ?_, ?_⟩
  · simp [fetchAllMessages, hrun]
  · rw [hhead]; rfl
  · intro c hcm b p hb hp m hm
    rcases hall c hcm with h | h
    · rw [h] at hp; cases hp
    · rw [h] at hp
      cases hp
      have := (mem_platformPage hm).2
      rw [hb] at this
      simpa [olderThan] using this
  · simpa using hfin

/-- Witness of C3 on 250 messages: four calls. -/
theorem fetchAllMessages_calls_witness :
    ∃ msgs calls,
      fetchAllMessages (platformFetch (sampleHistory 250) (fun _ => false)) 4
        = some (msgs, calls) ∧
      calls.length = ((sampleHistory 250).length + 99) / 100 + 1 ∧
      calls.head?.map FetchCall.before = some none ∧
      List.Chain' CursorFollows calls ∧
      (∀ c ∈ calls, ∀ b p, c.before = some b → c.page = some p → ∀ m ∈ p, m.id < b) ∧
      calls.getLast?.map FetchCall.page = some (some []) :=
  fetchAllMessages_calls (sampleHistory 250) (sampleHistory_chronological 250) 4
    (by rw [sampleHistory_length]; decide)

/-- C5.  On a chronological history, when the calls 1 to `k - 1` resolve, the
pages they return are non-empty (so that the call `k` is made) and the call
`k ≥ 2` rejects, `fetchAllMessages` returns (for every fuel of at least `k`)
after exactly `k` calls, the rejected one being the last, and the sequence
returned consists of exactly the messages of the pages retrieved, which are
the newest `100 * (k - 1)` messages of the history. -/
theorem fetchAllMessages_stops_at_rejection (history : List Message) (hc : Chronological history)
    (fails : Nat → Bool) (k : Nat) (hk : 2 ≤ k)
    (hbefore : ∀ i, i + 1 < k → fails i = false) (hfail : fails (k - 1) = true)
    (hreach : 100 * (k - 2) < history.length)
    (fuel : Nat) (hfuel : k ≤ fuel) :
    ∃ msgs calls,
      fetchAllMessages (platformFetch history fails) fuel = some (msgs, calls) ∧
      calls.length = k ∧
      calls.getLast?.map FetchCall.page = some none ∧
      msgs.Perm (retrieved calls) ∧
      msgs.Perm (history.drop (history.length - 100 * (k - 1))) := by
  obtain ⟨acc, calls, rest, hrun, hlen, hp1, hp2, -, -, hfin, -⟩ :=
    fetchLoop_platform history hc fails (k - 1) 0 none [] [] fuel
      (fun i hi => by rw [Nat.zero_add]; exact hbefore i (by omega))
      (by rw [filter_olderThan_none]; omega)
      (Or.inl (by rw [Nat.zero_add]; exact hfail)) (by omega)
  rw [filter_olderThan_none] at hp1
  rw [Nat.zero_add, hfail] at hfin
  refine ⟨acc.reverse, calls, ?_, by omega, by simpa using hfin,
    (List.reverse_perm acc).trans hp2, (List.reverse_perm acc).trans hp1⟩
  simp [fetchAllMessages, hrun]

/-- Witness of C5: 250 messages, the third call rejects, the 200 newest
messages are returned after three calls. -/
theorem fetchAllMessages_stops_at_rejection_witness :
    ∃ msgs calls,
      fetchAllMessages (platformFetch (sampleHistory 250) (fun i => i == 2)) 3
        = some (msgs, calls) ∧
      calls.length = 3 ∧
      calls.getLast?.map FetchCall.page = some none ∧
      msgs.Perm (retrieved calls) ∧
      msgs.Perm ((sampleHistory 250).drop ((sampleHistory 250).length - 100 * (3 - 1))) :=
  fetchAllMessages_stops_at_rejection (sampleHistory 250) (sampleHistory_chronological 250)
    (fun i => i == 2) 3 (by decide)
    (fun i hi => by
      have : i ≠ 2 := by omega
      simpa using this)
    (by decide) (by rw [sampleHistory_length]; decide) 3 (by decide)

/-! ## handleTicketClose -/

theorem deliveries_append (a b : List Effect) :
    deliveries (a ++ b) = deliveries a ++ deliveries b := by
  simp [deliveries]

theorem deliveries_fetches (channelId : String) (calls : List FetchCall) :
    deliveries (calls.map (fun c => Effect.messagesFetch channelId 100 c.before)) = [] := by
  induction calls with
  | nil => rfl
  | cons c cs ih => simp [deliveries]

/-- The confirmed close of a ticket, once the history is fetched. -/
theorem handleTicketClose_confirmed (cfg : Config) (rt : Runtime) (pf : Platform)
    (fuel : Nat) (channel : Channel) (member : Option Member) (interaction : Interaction)
    (msgs : List Message) (calls : List FetchCall)
    (ht : isTicketChannel cfg channel = true)
    (hfetch : fetchAllMessages (platformFetch channel.messages pf.fetchFails) fuel
      = some (msgs, calls)) :
    handleTicketClose cfg rt pf fuel channel member (some interaction)
      = some (calls.map (fun c => Effect.messagesFetch channel.id 100 c.before)
          ++ ownerDelivery pf channel (transcriptPayload rt channel member msgs)
          ++ originDelivery pf channel (transcriptPayload rt channel member msgs)
          ++ archiveDelivery cfg pf (transcriptPayload rt channel member msgs)
          ++ [Effect.channelSend channel.id deletionNotice,
              Effect.setTimeoutDelete channel.id 5000],
        Outcome.resolved) := by
  simp [handleTicketClose, ht, hfetch]

/-- A rejected first call ends `fetchAllMessages` with no message. -/
theorem fetchAllMessages_first_fails (history : List Message) (fails : Nat → Bool)
    (fuel : Nat) (hfuel : 0 < fuel) (hfail : fails 0 = true) :
    fetchAllMessages (platformFetch history fails) fuel = some ([], [⟨none, none⟩]) := by
  obtain ⟨fuel, rfl⟩ : ∃ f, fuel = f + 1 := ⟨fuel - 1, by omega⟩
  simp [fetchAllMessages, fetchLoop, platformFetch, hfail]

/-- C4, on a concrete ticket.  The first history call rejects, and the
confirmed close still resolves: the (empty) transcript goes to the owner, to
the ticket channel and to the archive channel, the deletion notice is posted
and the deletion is scheduled. -/
theorem close_proceeds_after_rejected_first_fetch :
    isTicketChannel sampleConfig sampleTicket = true ∧
    (samplePlatform (fun k => k == 0)).fetchFails 0 = true ∧
    ∃ effects,
      handleTicketClose sampleConfig sampleRuntime (samplePlatform (fun k => k == 0)) 4
        sampleTicket (some supportMember) (some sampleInteraction)
        = some (effects, Outcome.resolved) ∧
      deliveries effects =
        [Effect.userSend "user-1"
            (transcriptPayload sampleRuntime sampleTicket (some supportMember) []),
          Effect.channelSend "chan-1"
            (transcriptPayload sampleRuntime sampleTicket (some supportMember) []),
          Effect.channelSend "chan-archive"
            (transcriptPayload sampleRuntime sampleTicket (some supportMember) []),
          Effect.channelSend "chan-1" deletionNotice,
          Effect.setTimeoutDelete "chan-1" 5000] := by
  refine ⟨by decide, rfl, _, rfl, rfl⟩

/-- C4 as the code has it.  In a confirmed close of a ticket channel whose
first history call rejects, the rejection is taken as an empty page: that
call is the only history call, the transcript is rendered from no message,
the three deliveries, the deletion notice and the scheduling of the deletion
after 5000 ms follow as in any close, and the function resolves. -/
theorem handleTicketClose_first_fetch_fails (cfg : Config) (rt : Runtime) (pf : Platform)
    (fuel : Nat) (channel : Channel) (member : Option Member) (interaction : Interaction)
    (ht : isTicketChannel cfg channel = true) (hfuel : 0 < fuel)
    (hfail : pf.fetchFails 0 = true) :
    handleTicketClose cfg rt pf fuel channel member (some interaction)
      = some ([Effect.messagesFetch channel.id 100 none]
          ++ ownerDelivery pf channel (transcriptPayload rt channel member [])
          ++ originDelivery pf channel (transcriptPayload rt channel member [])
          ++ archiveDelivery cfg pf (transcriptPayload rt channel member [])
          ++ [Effect.channelSend channel.id deletionNotice,
              Effect.setTimeoutDelete channel.id 5000],
        Outcome.resolved) ∧
    Effect.channelSend channel.id (transcriptPayload rt channel member [])
      ∈ originDelivery pf channel (transcriptPayload rt channel member []) ∧
    (transcriptPayload rt channel member []).files
      = [⟨renderTranscript rt [] channel.name, "transcript-" ++ channel.name ++ ".html"⟩] := by
  refine ⟨?_, ?_, rfl⟩
  · rw [handleTicketClose_confirmed cfg rt pf fuel channel member interaction [] [⟨none, none⟩]
      ht (fetchAllMessages_first_fails channel.messages pf.fetchFails fuel hfuel hfail)]
    rfl
  · unfold originDelivery
    cases pf.originSendOk <;> simp

/-- Witness of the amended C4 on the sample ticket. -/
theorem handleTicketClose_first_fetch_fails_witness :
    handleTicketClose sampleConfig sampleRuntime (samplePlatform (fun k => k == 0)) 1
        sampleTicket (some supportMember) (some sampleInteraction)
      = some ([Effect.messagesFetch sampleTicket.id 100 none]
          ++ ownerDelivery (samplePlatform (fun k => k == 0)) sampleTicket
              (transcriptPayload sampleRuntime sampleTicket (some supportMember) [])
          ++ originDelivery (samplePlatform (fun k => k == 0)) sampleTicket
              (transcriptPayload sampleRuntime sampleTicket (some supportMember) [])
          ++ archiveDelivery sampleConfig (samplePlatform (fun k => k == 0))
              (transcriptPayload sampleRuntime sampleTicket (some supportMember) [])
          ++ [Effect.channelSend sampleTicket.id deletionNotice,
              Effect.setTimeoutDelete sampleTicket.id 5000],
        Outcome.resolved) ∧
    Effect.channelSend sampleTicket.id
        (transcriptPayload sampleRuntime sampleTicket (some supportMember) [])
      ∈ originDelivery (samplePlatform (fun k => k == 0)) sampleTicket
          (transcriptPayload sampleRuntime sampleTicket (some supportMember) []) ∧
    (transcriptPayload sampleRuntime sampleTicket (some supportMember) []).files
      = [⟨renderTranscript sampleRuntime [] sampleTicket.name,
          "transcript-" ++ sampleTicket.name ++ ".html"⟩] :=
  handleTicketClose_first_fetch_fails sampleConfig sampleRuntime
    (samplePlatform (fun k => k == 0)) 1 sampleTicket (some supportMember) sampleInteraction
    (by decide) (by decide) rfl

theorem channelLookups_append (a b : List Effect) :
    channelLookups (a ++ b) = channelLookups a ++ channelLookups b := by
  simp [channelLookups]

theorem channelLookups_fetches (channelId : String) (calls : List FetchCall) :
    channelLookups (calls.map (fun c => Effect.messagesFetch channelId 100 c.before)) = [] := by
  induction calls with
  | nil => rfl
  | cons c cs ih => simp [channelLookups]

theorem channelLookups_ownerDelivery (pf : Platform) (channel : Channel) (payload : Payload) :
    channelLookups (ownerDelivery pf channel payload) = [] := by
  unfold ownerDelivery
  cases ticketOwnerId channel with
  | none => rfl
  | some owner =>
    cases h1 : pf.guildMember owner with
    | some u => simp [h1, channelLookups]
    | none => cases h2 : pf.user owner <;> simp [h1, h2, channelLookups]

theorem channelLookups_originDelivery (pf : Platform) (channel : Channel) (payload : Payload) :
    channelLookups (originDelivery pf channel payload) = [] := by
  unfold originDelivery
  cases pf.originSendOk <;> simp [channelLookups]

/-- C6.  In a confirmed close of a ticket channel whose owner is resolved to
the user `u` and with the archive channel `t` configured, for each of the 8
outcomes `dm`, `origin`, `arch` of the three sends and for every answer
`look` to the lookup of the archive channel, a rejected lookup included (and
with a fuel above the number of stored messages), the function resolves.
The archive channel is looked up once.  The sends are, in this order: the
transcript to the owner, once; the transcript to the ticket channel, once;
the transcript to the archive channel, once when the lookup finds a text
channel and not at all when the lookup fails or finds none; then the
deletion notice; then the one scheduling of the deletion with a delay of
5000 ms. -/
theorem handleTicketClose_deliveries (cfg : Config) (rt : Runtime) (pf : Platform)
    (fuel : Nat) (channel : Channel) (member : Option Member) (interaction : Interaction)
    (owner u t : String) (dm origin arch : Bool) (look : Lookup)
    (ht : isTicketChannel cfg channel = true)
    (hfuel : channel.messages.length < fuel)
    (howner : ticketOwnerId channel = some owner)
    (huser : pf.guildMember owner = some u ∨
      (pf.guildMember owner = none ∧ pf.user owner = some u))
    (hcfg : cfg.TRANSCRIPT_CHANNEL = some t) (hne : t ≠ "") :
    ∃ msgs calls effects,
      fetchAllMessages (platformFetch channel.messages pf.fetchFails) fuel
        = some (msgs, calls) ∧
      handleTicketClose cfg rt
          { pf with
            ownerDmOk := dm, originSendOk := origin, archiveSendOk := arch,
            archive := fun _ => look }
          fuel channel member (some interaction)
        = some (effects, Outcome.resolved) ∧
      channelLookups effects = [Effect.channelsFetch t] ∧
      deliveries effects =
        [Effect.userSend u (transcriptPayload rt channel member msgs),
          Effect.channelSend channel.id (transcriptPayload rt channel member msgs)]
        ++ (match look with
            | Lookup.found logId true =>
              [Effect.channelSend logId (transcriptPayload rt channel member msgs)]
            | _ => [])
        ++ [Effect.channelSend channel.id deletionNotice,
            Effect.setTimeoutDelete channel.id 5000] := by
  obtain ⟨msgs, calls, hfetch⟩ :=
    fetchAllMessages_returns channel.messages pf.fetchFails fuel hfuel
  refine ⟨msgs, calls, _, hfetch,
    handleTicketClose_confirmed cfg rt _ fuel channel member interaction msgs calls ht hfetch,
    ?_, ?_⟩
  · simp only [channelLookups_append, channelLookups_fetches, channelLookups_ownerDelivery,
      channelLookups_originDelivery, List.nil_append]
    unfold archiveDelivery
    rcases look with _ | _ | ⟨logId, textBased⟩
    · simp [hcfg, hne, channelLookups]
    · simp [hcfg, hne, channelLookups]
    · cases textBased <;> cases arch <;> simp [hcfg, hne, channelLookups]
  · simp only [deliveries_append, deliveries_fetches, List.nil_append]
    have h1 : deliveries (ownerDelivery
        { pf with
          ownerDmOk := dm, originSendOk := origin, archiveSendOk := arch,
          archive := fun _ => look } channel
        (transcriptPayload rt channel member msgs))
        = [Effect.userSend u (transcriptPayload rt channel member msgs)] := by
      unfold ownerDelivery
      rcases huser with h | ⟨h, h2⟩
      · simp [howner, h, deliveries]
      · simp [howner, h, h2, deliveries]
    have h2 : deliveries (originDelivery
        { pf with
          ownerDmOk := dm, originSendOk := origin, archiveSendOk := arch,
          archive := fun _ => look } channel
        (transcriptPayload rt channel member msgs))
        = [Effect.channelSend channel.id (transcriptPayload rt channel member msgs)] := by
      unfold originDelivery
      cases origin <;> simp [deliveries]
    rw [h1, h2]
    unfold archiveDelivery
    rcases look with _ | _ | ⟨logId, textBased⟩
    · simp [hcfg, hne, deliveries]
    · simp [hcfg, hne, deliveries]
    · cases textBased <;> cases arch <;> simp [hcfg, hne, deliveries]

/-- Witness of C6: the lookup of the archive channel rejects and the direct
message fails, the send to the ticket channel succeeds. -/
theorem handleTicketClose_deliveries_witness :
    ∃ msgs calls effects,
      fetchAllMessages
          (platformFetch sampleTicket.messages (samplePlatform (fun _ => false)).fetchFails) 4
        = some (msgs, calls) ∧
      handleTicketClose sampleConfig sampleRuntime
          { samplePlatform (fun _ => false) with
            ownerDmOk := false, originSendOk := true, archiveSendOk := false,
            archive := fun _ => Lookup.rejected }
          4 sampleTicket (some supportMember) (some sampleInteraction)
        = some (effects, Outcome.resolved) ∧
      channelLookups effects = [Effect.channelsFetch "chan-archive"] ∧
      deliveries effects =
        [Effect.userSend "user-1"
            (transcriptPayload sampleRuntime sampleTicket (some supportMember) msgs),
          Effect.channelSend sampleTicket.id
            (transcriptPayload sampleRuntime sampleTicket (some supportMember) msgs)]
        ++ []
        ++ [Effect.channelSend sampleTicket.id deletionNotice,
            Effect.setTimeoutDelete sampleTicket.id 5000] :=
  handleTicketClose_deliveries sampleConfig sampleRuntime (samplePlatform (fun _ => false)) 4
    sampleTicket (some supportMember) sampleInteraction "user-1" "user-1" "chan-archive"
    false true false Lookup.rejected (by decide) (by decide) (by decide) (Or.inl rfl) rfl
    (by decide)

theorem isTicketChannel_false_of_parent (cfg : Config) (channel : Channel)
    (hn : channel.parentId = none ∨
      (channel.parentId ≠ cfg.SHOP_CATEGORY ∧ channel.parentId ≠ cfg.SUPPORT_CATEGORY)) :
    isTicketChannel cfg channel = false := by
  unfold isTicketChannel
  rcases hn with h | ⟨h1, h2⟩
  · simp [h, truthy]
  · simp [h1, h2]

/-- C7.  For a channel whose parent category is absent, or is neither the
configured purchase category nor the configured support category,
`isTicketChannel` is false and `handleTicketClose` makes exactly one platform
call, the rejection message: a reply to the interaction when there is one, a
message in the channel when there is none.  No prompt, no history call, no
transcript and no scheduled deletion. -/
theorem handleTicketClose_not_a_ticket (cfg : Config) (rt : Runtime) (pf : Platform)
    (fuel : Nat) (channel : Channel) (member : Option Member)
    (hn : channel.parentId = none ∨
      (channel.parentId ≠ cfg.SHOP_CATEGORY ∧ channel.parentId ≠ cfg.SUPPORT_CATEGORY)) :
    isTicketChannel cfg channel = false ∧
    (∀ interaction : Interaction,
      handleTicketClose cfg rt pf fuel channel member (some interaction)
        = some ([Effect.interactionReply ⟨some notATicket, [], [], [], some 64⟩],
            settle pf.replyOk)) ∧
    handleTicketClose cfg rt pf fuel channel member none
      = some ([Effect.channelSend channel.id (textPayload notATicket)],
          settle pf.rejectionSendOk) := by
  have h := isTicketChannel_false_of_parent cfg channel hn
  refine ⟨h, ?_, ?_⟩
  · intro interaction
    simp [handleTicketClose, h]
  · simp [handleTicketClose, h]

/-- Witness of C7 on a channel of another category. -/
theorem handleTicketClose_not_a_ticket_witness :
    isTicketChannel sampleConfig lobbyChannel = false ∧
    (∀ interaction : Interaction,
      handleTicketClose sampleConfig sampleRuntime (samplePlatform (fun _ => false)) 4
          lobbyChannel (some supportMember) (some interaction)
        = some ([Effect.interactionReply ⟨some notATicket, [], [], [], some 64⟩],
            settle (samplePlatform (fun _ => false)).replyOk)) ∧
    handleTicketClose sampleConfig sampleRuntime (samplePlatform (fun _ => false)) 4
        lobbyChannel (some supportMember) none
      = some ([Effect.channelSend lobbyChannel.id (textPayload notATicket)],
          settle (samplePlatform (fun _ => false)).rejectionSendOk) :=
  handleTicketClose_not_a_ticket sampleConfig sampleRuntime (samplePlatform (fun _ => false)) 4
    lobbyChannel (some supportMember) (Or.inr (by decide))

/-- C8, on a concrete ticket.  An unconfirmed close request posts the prompt;
a second unconfirmed request, made on the channel in which that prompt is
the newest message and still unanswered, posts the prompt again. -/
theorem handleTicketClose_second_request_posts_again :
    isTicketChannel sampleConfig sampleTicket = true ∧
    handleTicketClose sampleConfig sampleRuntime (samplePlatform (fun _ => false)) 4
        sampleTicket (some supportMember) none
      = some ([Effect.channelSend "chan-1" confirmPrompt], Outcome.resolved) ∧
    pendingTicket.messages.getLast?.map Message.cleanContent = confirmPrompt.content ∧
    handleTicketClose sampleConfig sampleRuntime (samplePlatform (fun _ => false)) 4
        pendingTicket (some supportMember) none
      = some ([Effect.channelSend "chan-1" confirmPrompt], Outcome.resolved) := by
  refine ⟨by decide, rfl, by decide, rfl⟩

/-- C8 as the code has it.  On a ticket channel every unconfirmed close request
posts one confirmation prompt and does nothing else, whatever the channel
already holds: the function reads no record of an outstanding prompt. -/
theorem handleTicketClose_unconfirmed_posts_prompt (cfg : Config) (rt : Runtime)
    (pf : Platform) (fuel : Nat) (channel : Channel) (member : Option Member)
    (ht : isTicketChannel cfg channel = true) :
    handleTicketClose cfg rt pf fuel channel member none
      = some ([Effect.channelSend channel.id confirmPrompt], settle pf.promptSendOk) := by
  simp [handleTicketClose, ht]

/-- Witness of the amended C8 on the ticket with a pending prompt. -/
theorem handleTicketClose_unconfirmed_posts_prompt_witness :
    handleTicketClose sampleConfig sampleRuntime (samplePlatform (fun _ => false)) 0
        pendingTicket (some supportMember) none
      = some ([Effect.channelSend pendingTicket.id confirmPrompt],
          settle (samplePlatform (fun _ => false)).promptSendOk) :=
  handleTicketClose_unconfirmed_posts_prompt sampleConfig sampleRuntime
    (samplePlatform (fun _ => false)) 0 pendingTicket (some supportMember) (by decide)

/-! ## createShopTicket and createSupportTicket -/

theorem createdOverwrites_shop (cfg : Config) (rt : Runtime) (pf : Platform)
    (interaction : Interaction) :
    createdOverwrites (createShopTicket cfg rt pf interaction).1
      = [shopOverwrites cfg interaction] := by
  unfold createShopTicket
  cases pf.created <;> cases pf.openingSendOk <;> simp [createdOverwrites, shopRequest]

theorem createdOverwrites_support (cfg : Config) (rt : Runtime) (pf : Platform)
    (interaction : Interaction) :
    createdOverwrites (createSupportTicket cfg rt pf interaction).1
      = [supportOverwrites cfg interaction] := by
  unfold createSupportTicket
  cases pf.created <;> cases pf.openingSendOk <;> simp [createdOverwrites, supportRequest]

/-- C9.  `createShopTicket` and `createSupportTicket` each make one creation
request, and its `permissionOverwrites` has exactly three entries, in this
order: an entry for the guild id (the everyone principal) that denies and
allows nothing, an entry for the requesting member that allows and denies
nothing, an entry for the configured support role that allows and denies
nothing. -/
theorem create_grants_three_entries (cfg : Config) (rt : Runtime) (pf : Platform)
    (interaction : Interaction) :
    ∃ d a₁ a₂, d ≠ [] ∧ a₁ ≠ [] ∧ a₂ ≠ [] ∧
      createdOverwrites (createShopTicket cfg rt pf interaction).1
        = [[⟨interaction.guildId, [], d⟩, ⟨interaction.member.id, a₁, []⟩,
            ⟨cfg.SUPPORT_ROLE, a₂, []⟩]] ∧
      createdOverwrites (createSupportTicket cfg rt pf interaction).1
        = [[⟨interaction.guildId, [], d⟩, ⟨interaction.member.id, a₁, []⟩,
            ⟨cfg.SUPPORT_ROLE, a₂, []⟩]] := by
  refine ⟨[Permission.ViewChannel], [Permission.ViewChannel, Permission.SendMessages],
    [Permission.ViewChannel, Permission.SendMessages], by simp, by simp, by simp, ?_, ?_⟩
  · rw [createdOverwrites_shop]; rfl
  · rw [createdOverwrites_support]; rfl

/-- C10, on a concrete purchase form.  In the creation request the entry of the
owner does not allow read-history, and the entry of the everyone principal
denies neither send nor read-history. -/
theorem create_grants_lack_read_history :
    ∃ grants ∈ createdOverwrites
        (createShopTicket sampleConfig sampleRuntime (samplePlatform (fun _ => false))
          sampleInteraction).1,
      (∃ g ∈ grants, g.id = sampleInteraction.member.id ∧
        Permission.ReadMessageHistory ∉ g.allow) ∧
      (∃ g ∈ grants, g.id = sampleInteraction.guildId ∧
        Permission.SendMessages ∉ g.deny ∧ Permission.ReadMessageHistory ∉ g.deny) := by
  decide

/-- C10 as the code has it.  In the creation request of either ticket
function the entries of the owner and of the support role allow exactly view
and send, and the entry of the everyone principal denies exactly view;
read-history is in no entry. -/
theorem create_grants_capabilities (cfg : Config) (rt : Runtime) (pf : Platform)
    (interaction : Interaction) :
    createdOverwrites (createShopTicket cfg rt pf interaction).1
      = [[⟨interaction.guildId, [], [Permission.ViewChannel]⟩,
          ⟨interaction.member.id, [Permission.ViewChannel, Permission.SendMessages], []⟩,
          ⟨cfg.SUPPORT_ROLE, [Permission.ViewChannel, Permission.SendMessages], []⟩]] ∧
    createdOverwrites (createSupportTicket cfg rt pf interaction).1
      = [[⟨interaction.guildId, [], [Permission.ViewChannel]⟩,
          ⟨interaction.member.id, [Permission.ViewChannel, Permission.SendMessages], []⟩,
          ⟨cfg.SUPPORT_ROLE, [Permission.ViewChannel, Permission.SendMessages], []⟩]] := by
  rw [createdOverwrites_shop, createdOverwrites_support]
  exact ⟨rfl, rfl⟩

/-! ## cleanInput and the channel names -/

theorem toLower_not_upper (d : Char) : ¬ ('A' ≤ Char.toLower d ∧ Char.toLower d ≤ 'Z') := by
  unfold Char.toLower
  by_cases h : d.toNat ≥ 65 ∧ d.toNat ≤ 90
  · simp only [h, and_self, if_true]
    obtain ⟨h1, h2⟩ := h
    generalize d.toNat = n at h1 h2
    interval_cases n <;> decide
  · simp only [h, if_false]
    intro ⟨h1, h2⟩
    apply h
    rw [Char.le_def, UInt32.le_def] at h1 h2
    exact ⟨h1, h2⟩

/-- The lower-casing of the sample runtime leaves no upper-case ASCII letter. -/
theorem sampleRuntime_lower (s : String) (c : Char)
    (hc : c ∈ (sampleRuntime.toLowerCase s).toList) : ¬ ('A' ≤ c ∧ c ≤ 'Z') := by
  change c ∈ s.toList.map Char.toLower at hc
  obtain ⟨d, -, rfl⟩ := List.mem_map.mp hc
  exact toLower_not_upper d

theorem keptByClean_eq_isLowerAlnum {c : Char} (hu : ¬ ('A' ≤ c ∧ c ≤ 'Z')) :
    keptByClean c = isLowerAlnum c := by
  rw [Bool.eq_iff_iff]
  simp only [keptByClean, isLowerAlnum, Bool.or_eq_true, Bool.and_eq_true, decide_eq_true_eq]
  tauto

theorem cleanInput_eq_spec (rt : Runtime)
    (hlow : ∀ s c, c ∈ (rt.toLowerCase s).toList → ¬ ('A' ≤ c ∧ c ≤ 'Z'))
    (hempty : rt.toLowerCase "" = "") (s : String) :
    cleanInput rt s = cleanInputSpec rt s := by
  unfold cleanInput cleanInputSpec
  by_cases h : s = ""
  · subst h
    simp [hempty]
  · rw [if_neg h]
    congr 2
    exact List.filter_congr (fun c hc => keptByClean_eq_isLowerAlnum (hlow s c hc))

theorem cleanInputSpec_chars (rt : Runtime) (s : String) :
    (∀ c ∈ (cleanInputSpec rt s).toList, isLowerAlnum c = true) ∧
    (cleanInputSpec rt s).length ≤ 25 := by
  unfold cleanInputSpec
  constructor
  · intro c hc
    exact (List.mem_filter.mp (List.mem_of_mem_take hc)).2
  · rw [String.length_mk, List.length_take]
    exact Nat.min_le_left _ _

/-- C11.  With a lower-casing that leaves no upper-case ASCII letter and maps
the empty string to itself, `cleanInput(s)` consists only of characters of
`[a-z0-9]`, has at most 25 characters, and is the first 25 characters of the
lower-cased `s` with every character outside `[a-z0-9]` removed; "Gift Card",
lower-cased to "gift card", gives "giftcard". -/
theorem cleanInput_alnum_25 (rt : Runtime)
    (hlow : ∀ s c, c ∈ (rt.toLowerCase s).toList → ¬ ('A' ≤ c ∧ c ≤ 'Z'))
    (hempty : rt.toLowerCase "" = "") (s : String) :
    (∀ c ∈ (cleanInput rt s).toList, isLowerAlnum c = true) ∧
    (cleanInput rt s).length ≤ 25 ∧
    cleanInput rt s = cleanInputSpec rt s ∧
    (rt.toLowerCase "Gift Card" = "gift card" → cleanInput rt "Gift Card" = "giftcard") := by
  rw [cleanInput_eq_spec rt hlow hempty s]
  refine ⟨(cleanInputSpec_chars rt s).1, (cleanInputSpec_chars rt s).2, rfl, ?_⟩
  intro hg
  unfold cleanInput
  rw [if_neg (by decide), hg]
  decide

/-- Witness of C11 with ASCII lower-casing, on the product name "Gift Card". -/
theorem cleanInput_alnum_25_witness :
    (∀ c ∈ (cleanInput sampleRuntime "Gift Card").toList, isLowerAlnum c = true) ∧
    (cleanInput sampleRuntime "Gift Card").length ≤ 25 ∧
    cleanInput sampleRuntime "Gift Card" = cleanInputSpec sampleRuntime "Gift Card" ∧
    (sampleRuntime.toLowerCase "Gift Card" = "gift card" →
      cleanInput sampleRuntime "Gift Card" = "giftcard") :=
  cleanInput_alnum_25 sampleRuntime sampleRuntime_lower rfl "Gift Card"

theorem createdNames_shop (cfg : Config) (rt : Runtime) (pf : Platform)
    (interaction : Interaction) :
    createdNames (createShopTicket cfg rt pf interaction).1
      = [(shopRequest cfg rt interaction).name] := by
  unfold createShopTicket
  cases pf.created <;> cases pf.openingSendOk <;> simp [createdNames]

theorem createdNames_support (cfg : Config) (rt : Runtime) (pf : Platform)
    (interaction : Interaction) :
    createdNames (createSupportTicket cfg rt pf interaction).1
      = [(supportRequest cfg rt interaction).name] := by
  unfold createSupportTicket
  cases pf.created <;> cases pf.openingSendOk <;> simp [createdNames]

/-- C12, on a concrete purchase form.  With the product name "!!!" and the
requester "alice" the name passed to the channel creation is "shop-alice",
which holds a hyphen, a character outside `[a-z0-9]`. -/
theorem shop_name_falls_back_unsanitized :
    createdNames (createShopTicket sampleConfig sampleRuntime
        (samplePlatform (fun _ => false)) symbolProductInteraction).1 = ["shop-alice"] ∧
    ∃ name ∈ createdNames (createShopTicket sampleConfig sampleRuntime
        (samplePlatform (fun _ => false)) symbolProductInteraction).1,
      ∃ c ∈ name.toList, isLowerAlnum c = false := by
  decide

/-- C12 as the code has it.  With a lower-casing that leaves no upper-case
ASCII letter and maps the empty string to itself: `createSupportTicket` passes
`cleanInput` of `support-<username>` as the channel name; `createShopTicket`
passes `cleanInput` of the product name when that is not empty, and
`shop-<username>` as it stands when it is empty; every value of `cleanInput`
consists of characters of `[a-z0-9]` and has at most 25 of them. -/
theorem created_names_derivation (cfg : Config) (rt : Runtime) (pf : Platform)
    (interaction : Interaction)
    (hlow : ∀ s c, c ∈ (rt.toLowerCase s).toList → ¬ ('A' ≤ c ∧ c ≤ 'Z'))
    (hempty : rt.toLowerCase "" = "") :
    createdNames (createShopTicket cfg rt pf interaction).1
      = [if cleanInput rt (interaction.fields "product") = ""
          then "shop-" ++ interaction.member.username
          else cleanInput rt (interaction.fields "product")] ∧
    createdNames (createSupportTicket cfg rt pf interaction).1
      = [cleanInput rt ("support-" ++ interaction.member.username)] ∧
    (∀ s, (∀ c ∈ (cleanInput rt s).toList, isLowerAlnum c = true) ∧
      (cleanInput rt s).length ≤ 25) := by
  refine ⟨?_, ?_, ?_⟩
  · rw [createdNames_shop]; rfl
  · rw [createdNames_support]; rfl
  · intro s
    rw [cleanInput_eq_spec rt hlow hempty s]
    exact cleanInputSpec_chars rt s

/-- Witness of the amended C12 on the purchase form "Gift Card". -/
theorem created_names_derivation_witness :
    createdNames (createShopTicket sampleConfig sampleRuntime
        (samplePlatform (fun _ => false)) sampleInteraction).1
      = [if cleanInput sampleRuntime (sampleInteraction.fields "product") = ""
          then "shop-" ++ sampleInteraction.member.username
          else cleanInput sampleRuntime (sampleInteraction.fields "product")] ∧
    createdNames (createSupportTicket sampleConfig sampleRuntime
        (samplePlatform (fun _ => false)) sampleInteraction).1
      = [cleanInput sampleRuntime ("support-" ++ sampleInteraction.member.username)] ∧
    (∀ s, (∀ c ∈ (cleanInput sampleRuntime s).toList, isLowerAlnum c = true) ∧
      (cleanInput sampleRuntime s).length ≤ 25) :=
  created_names_derivation sampleConfig sampleRuntime (samplePlatform (fun _ => false))
    sampleInteraction sampleRuntime_lower rfl

/-- C13, on concrete forms.  A purchase form whose payment method is blank and
a support form whose concern is empty both get their channel created, the
opening message sent and the confirmation replied: the functions resolve and
nothing is refused. -/
theorem blank_fields_still_create :
    blankPaymentInteraction.fields "payment" = " " ∧
    createdNames (createShopTicket sampleConfig sampleRuntime
        (samplePlatform (fun _ => false)) blankPaymentInteraction).1 = ["giftcard"] ∧
    (createShopTicket sampleConfig sampleRuntime
        (samplePlatform (fun _ => false)) blankPaymentInteraction).1.length = 3 ∧
    (createShopTicket sampleConfig sampleRuntime
        (samplePlatform (fun _ => false)) blankPaymentInteraction).2 = Outcome.resolved ∧
    blankConcernInteraction.fields "concern" = "" ∧
    createdNames (createSupportTicket sampleConfig sampleRuntime
        (samplePlatform (fun _ => false)) blankConcernInteraction).1 = ["supportalice"] ∧
    (createSupportTicket sampleConfig sampleRuntime
        (samplePlatform (fun _ => false)) blankConcernInteraction).1.length = 3 ∧
    (createSupportTicket sampleConfig sampleRuntime
        (samplePlatform (fun _ => false)) blankConcernInteraction).2 = Outcome.resolved := by
  decide

/-- C13 as the code has it.  The ticket functions check no field: whatever the
submitted values, blank ones included, the first call of `createShopTicket`
and of `createSupportTicket` is the creation of the channel, and each makes
one creation request.  The only mark of a required field is the `required`
flag of the inputs of the two modals: set for product, payment and concern,
not set for the details. -/
theorem create_checks_no_field (cfg : Config) (rt : Runtime) (pf : Platform)
    (interaction : Interaction) :
    (createShopTicket cfg rt pf interaction).1.head?
      = some (Effect.channelsCreate interaction.guildId (shopRequest cfg rt interaction)) ∧
    (createdNames (createShopTicket cfg rt pf interaction).1).length = 1 ∧
    (createSupportTicket cfg rt pf interaction).1.head?
      = some (Effect.channelsCreate interaction.guildId
          (supportRequest cfg rt interaction)) ∧
    (createdNames (createSupportTicket cfg rt pf interaction).1).length = 1 ∧
    (showShopModal pf).1.map (fun e =>
        match e with
        | Effect.showModal m => m.components.map (fun t => (t.customId, t.required))
        | _ => [])
      = [[("product", true), ("payment", true), ("details", false)]] ∧
    (showSupportModal pf).1.map (fun e =>
        match e with
        | Effect.showModal m => m.components.map (fun t => (t.customId, t.required))
        | _ => [])
      = [[("concern", true)]] := by
  refine ⟨?_, ?_, ?_, ?_, rfl, rfl⟩
  · unfold createShopTicket
    cases pf.created <;> cases pf.openingSendOk <;> simp
  · rw [createdNames_shop]; rfl
  · unfold createSupportTicket
    cases pf.created <;> cases pf.openingSendOk <;> simp
  · rw [createdNames_support]; rfl

/-! ## The owner of a ticket -/

theorem ticketOwnerId_of_creation (cfg : Config) (interaction : Interaction)
    (isMember : String → Bool) (extra : List PermissionOverwrite) (channel : Channel)
    (hgrants : channel.permissionOverwrites
      = (shopOverwrites cfg interaction).map (storedOverwrite isMember) ++ extra)
    (hguild : isMember interaction.guildId = false)
    (hmember : isMember interaction.member.id = true)
    (hid : interaction.member.id ≠ "") :
    ticketOwnerId channel = some interaction.member.id := by
  simp [ticketOwnerId, hgrants, shopOverwrites, storedOverwrite, hguild, hmember, hid,
    List.find?]

/-- C14, on concrete channels.  On the ticket as created the owner is the
requester `user-1`; once the overwrite of the requester is removed and
`user-3` has been added, the owner found is `user-3`, and the confirmed
close sends the transcript by direct message to `user-3`. -/
theorem owner_follows_live_grants :
    ticketOwnerId sampleTicket = some "user-1" ∧
    ticketOwnerId ticketWithoutRequesterGrant = some "user-3" ∧
    ∃ effects payload,
      handleTicketClose sampleConfig sampleRuntime (samplePlatform (fun _ => false)) 4
        ticketWithoutRequesterGrant (some supportMember) (some sampleInteraction)
        = some (effects, Outcome.resolved) ∧
      (deliveries effects).head? = some (Effect.userSend "user-3" payload) := by
  refine ⟨by decide, by decide, _, _, rfl, rfl⟩

/-- C14 as the code has it.  The owner is read from the overwrites the channel
has at the time of the call: it is the id of the first overwrite of member
type, so two channels with the same overwrites have the same owner.  For a
channel whose overwrites are those of the creation request of either ticket
function, as the platform stores them, followed by any further overwrites,
that id is the id of the requester, and the direct message of the close goes
to the user found for it. -/
theorem owner_is_first_member_grant (cfg : Config) (pf : Platform)
    (interaction : Interaction) (isMember : String → Bool)
    (extra : List PermissionOverwrite) (channel : Channel) (payload : Payload) (u : String)
    (hgrants : channel.permissionOverwrites
        = (shopOverwrites cfg interaction).map (storedOverwrite isMember) ++ extra ∨
      channel.permissionOverwrites
        = (supportOverwrites cfg interaction).map (storedOverwrite isMember) ++ extra)
    (hguild : isMember interaction.guildId = false)
    (hmember : isMember interaction.member.id = true)
    (hid : interaction.member.id ≠ "")
    (hu : pf.guildMember interaction.member.id = some u) :
    ticketOwnerId channel = some interaction.member.id ∧
    deliveries (ownerDelivery pf channel payload) = [Effect.userSend u payload] ∧
    (∀ other : Channel, other.permissionOverwrites = channel.permissionOverwrites →
      ticketOwnerId other = ticketOwnerId channel) := by
  have hshop : channel.permissionOverwrites
      = (shopOverwrites cfg interaction).map (storedOverwrite isMember) ++ extra := by
    rcases hgrants with h | h
    · exact h
    · exact h
  have howner := ticketOwnerId_of_creation cfg interaction isMember extra channel hshop
    hguild hmember hid
  refine ⟨howner, ?_, ?_⟩
  · simp [ownerDelivery, howner, hu, deliveries]
  · intro other h
    simp [ticketOwnerId, h]

/-- Witness of the amended C14: the sample ticket with one added member. -/
theorem owner_is_first_member_grant_witness :
    ticketOwnerId ticketWithAddedMember = some sampleInteraction.member.id ∧
    deliveries (ownerDelivery (samplePlatform (fun _ => false)) ticketWithAddedMember
        deletionNotice)
      = [Effect.userSend "user-1" deletionNotice] ∧
    (∀ other : Channel,
      other.permissionOverwrites = ticketWithAddedMember.permissionOverwrites →
      ticketOwnerId other = ticketOwnerId ticketWithAddedMember) :=
  owner_is_first_member_grant sampleConfig (samplePlatform (fun _ => false))
    sampleInteraction sampleIsMember
    [⟨"user-3", 1,
      [Permission.ViewChannel, Permission.SendMessages, Permission.ReadMessageHistory], []⟩]
    ticketWithAddedMember deletionNotice "user-1"
    (Or.inl (by decide)) (by decide) (by decide) (by decide) rfl

/-! ## handleTicketDone -/

theorem doneName_length (n : String) : (doneName n).length ≤ 100 := by
  unfold doneName
  rw [List.length_take]
  exact Nat.min_le_left _ _

theorem take_append_take {α : Type} (k : Nat) (a x : List α) :
    (a ++ x.take k).take k = (a ++ x).take k := by
  rw [List.take_append_eq_append_take, List.take_append_eq_append_take, List.take_take]
  congr 2
  omega

theorem utf16_append (a b : String) : utf16 (a ++ b) = utf16 a ++ utf16 b := by
  unfold utf16
  rw [String.toList, String.data_append, List.flatMap_append]
  rfl

/-- The name asked for on a channel whose name is the name asked for before. -/
theorem doneName_twice (n renamed : String) (h : utf16 renamed = doneName n) :
    doneName renamed = (utf16 ("done-done-" ++ n)).take 100 := by
  have hd : ("done-done-" : String) = "done-" ++ "done-" := by decide
  unfold doneName at h ⊢
  rw [utf16_append, h, take_append_take, hd, utf16_append, utf16_append, utf16_append,
    List.append_assoc]

theorem renames_handleTicketDone (cfg : Config) (pf : Platform) (channel : Channel)
    (owner : String) (h : ticketOwnerId channel = some owner) :
    renames (handleTicketDone cfg pf channel).1 = [(channel.id, doneName channel.name)] := by
  unfold handleTicketDone
  rw [h]
  cases h2 : pf.guildMember owner <;> simp [h2, renames]

set_option maxRecDepth 100000 in
/-- On a name of 62 characters and 122 UTF-16 code units the name asked for has
100 units and ends in the middle of an emoji, with its high surrogate. -/
theorem doneName_emoji :
    emojiTicket.name.length = 62 ∧
    (utf16 ("done-" ++ emojiTicket.name)).length = 127 ∧
    (doneName emojiTicket.name).length = 100 ∧
    (doneName emojiTicket.name).getLast? = some 55357 := by
  decide

/-- C15, on a ticket channel without member overwrite.  On the sample ticket
whose requester overwrite was removed, `handleTicketDone` posts the warning
that no owner was found and requests no rename. -/
theorem handleTicketDone_without_owner_renames_nothing :
    isTicketChannel sampleConfig ticketWithoutMemberGrant = true ∧
    ticketOwnerId ticketWithoutMemberGrant = none ∧
    handleTicketDone sampleConfig (samplePlatform (fun _ => false)) ticketWithoutMemberGrant
      = ([Effect.channelSend "chan-1" (textPayload ownerNotFound)], Outcome.resolved) ∧
    renames (handleTicketDone sampleConfig (samplePlatform (fun _ => false))
        ticketWithoutMemberGrant).1 = [] := by
  decide

/-- C15 as the code has it.  When the channel has no member overwrite,
`handleTicketDone` requests no rename.  When it has one, for every channel
name `n` it requests exactly one rename, to the first 100 UTF-16 code units
of "done-" followed by `n`, a name of at most 100 units; for "support-alice"
that is "done-support-alice".  On a channel that bears the name so asked for
(same id, same overwrites) a second call asks for the first 100 units of
"done-done-" followed by `n`, "done-done-support-alice" in the example. -/
theorem handleTicketDone_rename (cfg : Config) (pf : Platform) (channel : Channel) :
    (ticketOwnerId channel = none → renames (handleTicketDone cfg pf channel).1 = []) ∧
    (∀ owner, ticketOwnerId channel = some owner →
      renames (handleTicketDone cfg pf channel).1
        = [(channel.id, (utf16 ("done-" ++ channel.name)).take 100)] ∧
      ((utf16 ("done-" ++ channel.name)).take 100).length ≤ 100 ∧
      (channel.name = "support-alice" →
        renames (handleTicketDone cfg pf channel).1
          = [(channel.id, utf16 "done-support-alice")]) ∧
      (∀ renamed : Channel, renamed.id = channel.id →
        renamed.permissionOverwrites = channel.permissionOverwrites →
        utf16 renamed.name = (utf16 ("done-" ++ channel.name)).take 100 →
        renames (handleTicketDone cfg pf renamed).1
          = [(channel.id, (utf16 ("done-done-" ++ channel.name)).take 100)]) ∧
      (channel.name = "support-alice" →
        renames (handleTicketDone cfg pf { channel with name := "done-support-alice" }).1
          = [(channel.id, utf16 "done-done-support-alice")])) := by
  constructor
  · intro h
    unfold handleTicketDone
    rw [h]
    rfl
  · intro owner h
    refine ⟨renames_handleTicketDone cfg pf channel owner h, doneName_length channel.name,
      ?_, ?_, ?_⟩
    · intro hn
      rw [renames_handleTicketDone cfg pf channel owner h, hn]
      exact congrArg (fun x => [(channel.id, x)])
        (by decide : doneName "support-alice" = utf16 "done-support-alice")
    · intro renamed hid hgrants hname
      have ho : ticketOwnerId renamed = some owner := by
        simpa [ticketOwnerId, hgrants] using h
      rw [renames_handleTicketDone cfg pf renamed owner ho, hid]
      exact congrArg (fun x => [(channel.id, x)]) (doneName_twice channel.name renamed.name hname)
    · intro _
      rw [renames_handleTicketDone cfg pf _ owner (by simpa [ticketOwnerId] using h)]
      exact congrArg (fun x => [(channel.id, x)])
        (by decide : doneName "done-support-alice" = utf16 "done-done-support-alice")

/-- Witness of the amended C15 on the ticket named "support-alice". -/
theorem handleTicketDone_rename_witness :
    renames (handleTicketDone sampleConfig (samplePlatform (fun _ => false))
        supportAliceTicket).1
      = [(supportAliceTicket.id, (utf16 ("done-" ++ supportAliceTicket.name)).take 100)] ∧
    ((utf16 ("done-" ++ supportAliceTicket.name)).take 100).length ≤ 100 ∧
    (supportAliceTicket.name = "support-alice" →
      renames (handleTicketDone sampleConfig (samplePlatform (fun _ => false))
          supportAliceTicket).1 = [(supportAliceTicket.id, utf16 "done-support-alice")]) ∧
    (∀ renamed : Channel, renamed.id = supportAliceTicket.id →
      renamed.permissionOverwrites = supportAliceTicket.permissionOverwrites →
      utf16 renamed.name = (utf16 ("done-" ++ supportAliceTicket.name)).take 100 →
      renames (handleTicketDone sampleConfig (samplePlatform (fun _ => false)) renamed).1
        = [(supportAliceTicket.id,
            (utf16 ("done-done-" ++ supportAliceTicket.name)).take 100)]) ∧
    (supportAliceTicket.name = "support-alice" →
      renames (handleTicketDone sampleConfig (samplePlatform (fun _ => false))
          { supportAliceTicket with name := "done-support-alice" }).1
        = [(supportAliceTicket.id, utf16 "done-done-support-alice")]) :=
  (handleTicketDone_rename sampleConfig (samplePlatform (fun _ => false))
    supportAliceTicket).2 "user-1" (by decide)

/-- C16, on a channel that is not a ticket.  `,done` sent by a member of the
support team in a channel of another category that has a member overwrite is
not rejected: the customer role is granted to that member, the channel is
renamed with the "done-" prefix and the completion notice is posted. -/
theorem done_outside_ticket_is_carried_out :
    isTicketChannel sampleConfig privateChannel = false ∧
    messageCreate sampleConfig sampleRuntime (samplePlatform (fun _ => false)) 0
        (fun _ _ => none) ([], Outcome.resolved) doneInPrivateChannel
      = some ([Effect.membersFetch "guild-1" "user-7",
          Effect.rolesAdd "user-7" "role-customer",
          Effect.setName "chan-8" (utf16 "done-staff-chat"),
          Effect.channelSend "chan-8" ⟨none, [doneEmbed "user-7"], [], [], none⟩],
        Outcome.resolved) := by
  decide

/-! ## renderTranscript -/

/-- C17.  The document is a fixed text that holds "Transcript of #" followed by
the channel name, then one entry per message in the order of the sequence,
then a fixed text.  An entry is made of fixed pieces around the tag of the
author ("?" when there is none), the time stamp of the message as the
runtime prints it, and the body.  Nothing else of the runtime is read: with
another clock, random source or lower-casing the document is the same. -/
theorem renderTranscript_structure :
    ∃ pre post e₁ e₂ e₃ e₄ foot : String,
      (∀ (rt : Runtime) (messages : List Message) (name : String),
        renderTranscript rt messages name
          = pre ++ "Transcript of #" ++ name ++ post
            ++ String.join (messages.map (fun m =>
                e₁ ++ (match m.authorTag with
                      | none => "?"
                      | some t => if t = "" then "?" else t)
                  ++ e₂ ++ rt.toLocaleString m.createdAt ++ e₃ ++ m.cleanContent ++ e₄))
            ++ foot) ∧
      (∀ (rt : Runtime) (lower : String → String) (now roll : Nat)
          (messages : List Message) (name : String),
        renderTranscript ⟨lower, rt.toLocaleString, now, roll⟩ messages name
          = renderTranscript rt messages name) := by
  refine ⟨"\n  <html><head><style>\n"
      ++ "  body\x7bbackground:#313338;color:#dcddde;font-family:sans-serif\x7d\n"
      ++ "  .msg\x7bmargin:5px 0;padding:5px;border-bottom:1px solid #444\x7d\n"
      ++ "  .auth\x7bcolor:#fff;font-weight:bold\x7d\n"
      ++ "  .time\x7bcolor:#999;font-size:12px;margin-left:6px\x7d\n"
      ++ "  </style></head><body>\n"
      ++ "  <h2>",
    "</h2>\n  ", "<div class=\"msg\"><span class=\"auth\">",
    "</span>\n  <span class=\"time\">", "</span><div>", "</div></div>",
    "\n  </body></html>", ?_, ?_⟩
  · intro rt messages name
    have hsplit : "  <h2>Transcript of #" = "  <h2>" ++ "Transcript of #" := by decide
    unfold renderTranscript transcriptHead transcriptFoot
    rw [hsplit, ← String.append_assoc]
    rfl
  · intro rt lower now roll messages name
    rfl

/-- C18, on a message whose body is markup.  The body `<script>alert(1)</script>`
stands in the entry as it is, between the fixed opening and closing pieces. -/
theorem body_markup_is_written_verbatim :
    scriptMessage.cleanContent = "<script>alert(1)</script>" ∧
    ∃ opening,
      renderMessage sampleRuntime scriptMessage
        = opening ++ "<script>alert(1)</script>" ++ "</div></div>" ∧
      renderTranscript sampleRuntime [scriptMessage] "giftcard"
        = transcriptHead "giftcard"
          ++ String.join [opening ++ "<script>alert(1)</script>" ++ "</div></div>"]
          ++ transcriptFoot :=
  ⟨rfl, _, rfl, rfl⟩

/-- C18 as the code has it.  The body is written into the entry unchanged: an
entry is an opening that depends on the author and the time stamp only,
followed by the body as it is, followed by the closing of the entry.  The
characters `<`, `>` and `&` of a body are therefore in the document as they
are in the body. -/
theorem body_is_written_unchanged :
    ∃ opening : Runtime → Option String → Nat → String,
      ∀ (rt : Runtime) (messages : List Message) (name : String),
        renderTranscript rt messages name
          = transcriptHead name
            ++ String.join (messages.map (fun m =>
                opening rt m.authorTag m.createdAt ++ m.cleanContent ++ "</div></div>"))
            ++ transcriptFoot := by
  refine ⟨fun rt tag t =>
      "<div class=\"msg\"><span class=\"auth\">"
        ++ (match tag with
            | none => "?"
            | some t => if t = "" then "?" else t)
        ++ "</span>\n  <span class=\"time\">" ++ rt.toLocaleString t ++ "</span><div>", ?_⟩
  intro rt messages name
  unfold renderTranscript
  congr 3

/-- C19, on a message with an attached file and no text.  The entry of the
message does not hold the URL of the file. -/
theorem attachment_url_is_not_rendered :
    attachmentMessage.attachments = ["https://cdn.example/receipt.png"] ∧
    ¬ ("https://cdn.example/receipt.png".toList
        <:+: (renderMessage sampleRuntime attachmentMessage).toList) := by
  refine ⟨rfl, ?_⟩
  intro h
  have hx : 'x' ∈ (renderMessage sampleRuntime attachmentMessage).toList :=
    h.subset (by decide)
  exact absurd hx (by decide)

/-- C19 as the code has it.  `renderTranscript` does not read the attachments:
the entry of a message, and so the document, is the same whatever files the
message carries, and is that of the message without any file.  The document
holds neither a reference to an attached file nor its content, unless the
body of the message spells it out. -/
theorem attachments_are_not_read (rt : Runtime) (messages : List Message) (name : String) :
    (∀ (m : Message) (urls : List String),
      renderMessage rt { m with attachments := urls } = renderMessage rt m) ∧
    renderTranscript rt (messages.map (fun m => { m with attachments := [] })) name
      = renderTranscript rt messages name := by
  refine ⟨fun _ _ => rfl, ?_⟩
  unfold renderTranscript
  rw [List.map_map]
  rfl

/-! ## Termination of fetchAllMessages -/

/-- The loop returns on every endpoint whose pages hold only stored messages
strictly older than the cursor. -/
theorem fetchLoop_terminates (fetch : Nat → Nat → Option Nat → Option (List Message))
    (history : List Message)
    (hpage : ∀ k before page, fetch k 100 before = some page →
      ∀ m ∈ page, m ∈ history ∧ olderThan before m = true) :
    ∀ (fuel k : Nat) (all : List Message) (last : Option Nat) (log : List FetchCall),
      (history.filter (olderThan last)).length < fuel →
      ∃ r, fetchLoop fetch fuel k all last log = some r := by
  intro fuel
  induction fuel with
  | zero => intro k all last log h; omega
  | succ fuel ih =>
    intro k all last log h
    rw [fetchLoop]
    by_cases h0 : ((fetch k 100 last).getD []).length = 0
    · simp [h0]
    · simp only [h0, if_false]
      cases hr : fetch k 100 last with
      | none => simp [hr] at h0
      | some page =>
        rw [hr] at h0
        simp only [Option.getD_some] at h0 ⊢
        cases hl : page.getLast? with
        | none =>
          rw [List.getLast?_eq_none_iff] at hl
          simp [hl] at h0
        | some x =>
          have hx := hpage k last page hr x (List.mem_of_getLast?_eq_some hl)
          have hxm : x ∈ history.filter (olderThan last) := List.mem_filter.mpr hx
          apply ih
          simp only [Option.map_some']
          rw [filter_olderThan_of_mem history last x hxm]
          have : ((history.filter (olderThan last)).filter (olderThan (some x.id))).length
              < (history.filter (olderThan last)).length :=
            List.length_filter_lt_length_iff_exists.mpr ⟨x, hxm, by simp [olderThan]⟩
          omega

/-- The pages of the history endpoint hold stored messages older than the cursor. -/
theorem platformFetch_older (history : List Message) (fails : Nat → Bool)
    (k : Nat) (before : Option Nat) (page : List Message)
    (h : platformFetch history fails k 100 before = some page) (m : Message)
    (hm : m ∈ page) : m ∈ history ∧ olderThan before m = true := by
  unfold platformFetch at h
  cases hf : fails k with
  | true => simp [hf] at h
  | false =>
    simp only [hf, Bool.false_eq_true, if_false, Option.some.injEq] at h
    rw [← h] at hm
    exact mem_platformPage hm

/-- C20.  Let the stored history be finite and let every page the endpoint
resolves with hold only stored messages strictly older than the cursor of the
call.  Then `fetchAllMessages` returns for every fuel above the number of
stored messages, and at every iteration that goes on (the page has a last
element, whose id becomes the cursor) the number of stored messages older
than the cursor strictly decreases. -/
theorem fetchAllMessages_terminates
    (fetch : Nat → Nat → Option Nat → Option (List Message)) (history : List Message)
    (hpage : ∀ k before page, fetch k 100 before = some page →
      ∀ m ∈ page, m ∈ history ∧ olderThan before m = true)
    (fuel : Nat) (hfuel : history.length < fuel) :
    (∃ msgs calls, fetchAllMessages fetch fuel = some (msgs, calls)) ∧
    (∀ k before page x, fetch k 100 before = some page → page.getLast? = some x →
      (history.filter (olderThan (some x.id))).length
        < (history.filter (olderThan before)).length) := by
  constructor
  · obtain ⟨r, hr⟩ := fetchLoop_terminates fetch history hpage fuel 0 [] none []
      (by rw [filter_olderThan_none]; exact hfuel)
    exact ⟨r.1.reverse, r.2, by simp [fetchAllMessages, hr]⟩
  · intro k before page x hr hl
    have hx := hpage k before page hr x (List.mem_of_getLast?_eq_some hl)
    have hxm : x ∈ history.filter (olderThan before) := List.mem_filter.mpr hx
    rw [filter_olderThan_of_mem history before x hxm]
    exact List.length_filter_lt_length_iff_exists.mpr ⟨x, hxm, by simp [olderThan]⟩

/-- Witness of C20 on the history endpoint with 250 stored messages, the third
call rejecting. -/
theorem fetchAllMessages_terminates_witness :
    (∃ msgs calls,
      fetchAllMessages (platformFetch (sampleHistory 250) (fun i => i == 2)) 251
        = some (msgs, calls)) ∧
    (∀ k before page x,
      platformFetch (sampleHistory 250) (fun i => i == 2) k 100 before = some page →
      page.getLast? = some x →
      ((sampleHistory 250).filter (olderThan (some x.id))).length
        < ((sampleHistory 250).filter (olderThan before)).length) :=
  fetchAllMessages_terminates (platformFetch (sampleHistory 250) (fun i => i == 2))
    (sampleHistory 250) (platformFetch_older (sampleHistory 250) (fun i => i == 2)) 251
    (by rw [sampleHistory_length]; decide)

/-! ## Created channels are tickets -/

theorem createdParents_shop (cfg : Config) (rt : Runtime) (pf : Platform)
    (interaction : Interaction) :
    createdParents (createShopTicket cfg rt pf interaction).1 = [cfg.SHOP_CATEGORY] := by
  unfold createShopTicket
  cases pf.created <;> cases pf.openingSendOk <;> simp [createdParents, shopRequest]

theorem createdParents_support (cfg : Config) (rt : Runtime) (pf : Platform)
    (interaction : Interaction) :
    createdParents (createSupportTicket cfg rt pf interaction).1 = [cfg.SUPPORT_CATEGORY] := by
  unfold createSupportTicket
  cases pf.created <;> cases pf.openingSendOk <;> simp [createdParents, supportRequest]

theorem isTicketChannel_of_shop_parent (cfg : Config) (channel : Channel)
    (h : channel.parentId = cfg.SHOP_CATEGORY) :
    isTicketChannel cfg channel = truthy cfg.SHOP_CATEGORY := by
  simp [isTicketChannel, h]

theorem isTicketChannel_of_support_parent (cfg : Config) (channel : Channel)
    (h : channel.parentId = cfg.SUPPORT_CATEGORY) :
    isTicketChannel cfg channel = truthy cfg.SUPPORT_CATEGORY := by
  simp [isTicketChannel, h]

/-- A close request on a ticket channel goes on: without interaction it posts
the prompt, with one (and enough fuel) it ends with the scheduled deletion. -/
theorem handleTicketClose_proceeds (cfg : Config) (rt : Runtime) (pf : Platform)
    (fuel : Nat) (channel : Channel) (member : Option Member)
    (ht : isTicketChannel cfg channel = true) :
    handleTicketClose cfg rt pf fuel channel member none
      = some ([Effect.channelSend channel.id confirmPrompt], settle pf.promptSendOk) ∧
    (∀ interaction : Interaction, channel.messages.length < fuel →
      ∃ effects,
        handleTicketClose cfg rt pf fuel channel member (some interaction)
          = some (effects, Outcome.resolved) ∧
        effects.getLast? = some (Effect.setTimeoutDelete channel.id 5000)) := by
  constructor
  · simp [handleTicketClose, ht]
  · intro interaction hfuel
    obtain ⟨msgs, calls, hfetch⟩ :=
      fetchAllMessages_returns channel.messages pf.fetchFails fuel hfuel
    exact ⟨_, handleTicketClose_confirmed cfg rt pf fuel channel member interaction msgs
      calls ht hfetch, by simp⟩

/-- C21.  Let `shopChannel` and `supportChannel` be channels the platform made
for the creation requests of `createShopTicket` and `createSupportTicket`,
so that their `parentId` is the `parent` of the request.  Then
`isTicketChannel` recognises each exactly when the category id of its
request type is configured (given and not empty).  When both ids are
configured, a close request on either channel is not rejected: without
interaction it posts the confirmation prompt, with an interaction (and a
fuel above the number of stored messages) it runs to the scheduled deletion. -/
theorem created_channels_are_tickets (cfg : Config) (rt : Runtime) (pf : Platform)
    (interaction : Interaction) (shopChannel supportChannel : Channel)
    (hshop : createdParents (createShopTicket cfg rt pf interaction).1
      = [shopChannel.parentId])
    (hsupport : createdParents (createSupportTicket cfg rt pf interaction).1
      = [supportChannel.parentId]) :
    isTicketChannel cfg shopChannel = truthy cfg.SHOP_CATEGORY ∧
    isTicketChannel cfg supportChannel = truthy cfg.SUPPORT_CATEGORY ∧
    (truthy cfg.SHOP_CATEGORY = true → truthy cfg.SUPPORT_CATEGORY = true →
      ∀ channel, channel = shopChannel ∨ channel = supportChannel →
        isTicketChannel cfg channel = true ∧
        ∀ (answers : Platform) (fuel : Nat) (member : Option Member),
          handleTicketClose cfg rt answers fuel channel member none
            = some ([Effect.channelSend channel.id confirmPrompt],
                settle answers.promptSendOk) ∧
          (∀ closing : Interaction, channel.messages.length < fuel →
            ∃ effects,
              handleTicketClose cfg rt answers fuel channel member (some closing)
                = some (effects, Outcome.resolved) ∧
              effects.getLast? = some (Effect.setTimeoutDelete channel.id 5000))) := by
  have h1 : shopChannel.parentId = cfg.SHOP_CATEGORY := by
    rw [createdParents_shop] at hshop
    exact (List.head_eq_of_cons_eq hshop).symm
  have h2 : supportChannel.parentId = cfg.SUPPORT_CATEGORY := by
    rw [createdParents_support] at hsupport
    exact (List.head_eq_of_cons_eq hsupport).symm
  have t1 := isTicketChannel_of_shop_parent cfg shopChannel h1
  have t2 := isTicketChannel_of_support_parent cfg supportChannel h2
  refine ⟨t1, t2, ?_⟩
  intro hs hp channel hch
  have ht : isTicketChannel cfg channel = true := by
    rcases hch with rfl | rfl
    · rw [t1, hs]
    · rw [t2, hp]
  exact ⟨ht, fun answers fuel member =>
    handleTicketClose_proceeds cfg rt answers fuel channel member ht⟩

/-- Witness of C21 on the sample purchase ticket and the sample support ticket. -/
theorem created_channels_are_tickets_witness :
    isTicketChannel sampleConfig sampleTicket = truthy sampleConfig.SHOP_CATEGORY ∧
    isTicketChannel sampleConfig supportAliceTicket = truthy sampleConfig.SUPPORT_CATEGORY ∧
    (truthy sampleConfig.SHOP_CATEGORY = true → truthy sampleConfig.SUPPORT_CATEGORY = true →
      ∀ channel, channel = sampleTicket ∨ channel = supportAliceTicket →
        isTicketChannel sampleConfig channel = true ∧
        ∀ (answers : Platform) (fuel : Nat) (member : Option Member),
          handleTicketClose sampleConfig sampleRuntime answers fuel channel member none
            = some ([Effect.channelSend channel.id confirmPrompt],
                settle answers.promptSendOk) ∧
          (∀ closing : Interaction, channel.messages.length < fuel →
            ∃ effects,
              handleTicketClose sampleConfig sampleRuntime answers fuel channel member
                  (some closing)
                = some (effects, Outcome.resolved) ∧
              effects.getLast? = some (Effect.setTimeoutDelete channel.id 5000))) :=
  created_channels_are_tickets sampleConfig sampleRuntime (samplePlatform (fun _ => false))
    sampleInteraction sampleTicket supportAliceTicket (by decide) (by decide)

/-! ## Ticket commands without the support role -/

/-- C22.  For a guild message of a member who is not a bot and does not hold
the configured support role, that no autoresponse matches and whose first
word is `,done`, `,close`, `,add` or `,rename` (a word the lower-casing of
the runtime leaves as it is), the handler makes one platform call, the reply
with the rejection text: no call of `handleTicketDone` or
`handleTicketClose`, no edit of an overwrite, no rename. -/
theorem messageCreate_without_support_role (cfg : Config) (rt : Runtime) (pf : Platform)
    (fuel : Nat) (findMatchingResponse : String → String → Option String)
    (rest : List Effect × Outcome) (message : Incoming) (word : String)
    (hbot : message.authorBot = false) (hguild : message.inGuild = true)
    (hauto : truthy (findMatchingResponse message.channel.guildId message.content) = false)
    (hword : (contentArgs message.content).headD "" = word)
    (hcommand : word ∈ ticketCommandWords)
    (hlower : rt.toLowerCase word = word)
    (hrole : message.member.roles.contains cfg.SUPPORT_ROLE = false) :
    messageCreate cfg rt pf fuel findMatchingResponse rest message
      = some ([Effect.messageReply (textPayload supportOnly)], settle pf.messageReplyOk) := by
  unfold messageCreate
  simp only [hbot, hguild, hauto, hword, hlower, hrole, Bool.false_eq_true, if_false,
    Bool.not_true, Bool.not_false, if_true]
  simp only [ticketCommandWords, List.mem_cons, List.mem_singleton, List.not_mem_nil,
    or_false] at hcommand
  rcases hcommand with rfl | rfl | rfl | rfl
  · simp
  · rw [if_neg (by decide), if_pos rfl]
  · rw [if_neg (by decide), if_neg (by decide), if_pos rfl]
  · rw [if_neg (by decide), if_neg (by decide), if_neg (by decide), if_pos rfl]

/-- Witness of C22: `,close now` sent in a ticket by its requester. -/
theorem messageCreate_without_support_role_witness :
    messageCreate sampleConfig sampleRuntime (samplePlatform (fun _ => false)) 0
        (fun _ _ => none) ([], Outcome.resolved) closeByRequester
      = some ([Effect.messageReply (textPayload supportOnly)],
          settle (samplePlatform (fun _ => false)).messageReplyOk) :=
  messageCreate_without_support_role sampleConfig sampleRuntime
    (samplePlatform (fun _ => false)) 0 (fun _ _ => none) ([], Outcome.resolved)
    closeByRequester ",close" rfl rfl rfl (by decide) (by decide) (by decide) (by decide)

end ZenTickets
